import Mathlib

/-!
Shallow embedding of the z2m-homekit bridge (Go) in Lean 4, covering the
value codec (src/devices/types.go), the device configuration loader
(src/devices/types.go LoadConfig), the state manager merge loop
(src/devices/manager.go ProcessStateEvents), the deduplicating event bus
(src/events/bus.go, src/events/types.go), the MQTT ingestion parser
(src/mqtt.go parseZ2MMessage), and the HomeKit state application
(src/hap.go UpdateState).

Modelling conventions: Go `time.Time` becomes a `Nat` tick (seconds), the
zero time being `0`; Go `float64` payload values become `Rat` (no float
arithmetic is performed on them in the modelled code paths other than the
truncating conversions, which are exact on the ranges involved); Go maps
become association lists with first-match lookup; Go `*T` optional fields
become `Option T`; emitted bus publishes become explicit result lists.
-/

namespace Z2M

/-! ## Value codec (src/devices/types.go) -/

/-- Go: `Z2MBrightnessToHAP(z2m int) int`. In the interior branch the Go
code computes `int(float64(z2m) * 100.0 / 254.0)`; for `0 < z2m < 254`
this float expression is exact truncating division of `z2m*100` by `254`
(the quotient is at least `1/254` away from the next integer, far above
one ulp), which on nonnegative operands coincides with `Int` floor
division. -/
def Z2MBrightnessToHAP (z2m : Int) : Int :=
  if z2m ≤ 0 then 0
  else if 254 ≤ z2m then 100
  else (z2m * 100) / 254

/-- Go: `HAPBrightnessToZ2M(hap int) int`, truncating `hap*254/100` in the
interior branch (exact on nonnegative operands, as above). -/
def HAPBrightnessToZ2M (hap : Int) : Int :=
  if hap ≤ 0 then 0
  else if 100 ≤ hap then 254
  else (hap * 254) / 100

/-- Go: `ClampColorTemp(ct int) int`, clamping to the HAP range 140..500. -/
def ClampColorTemp (ct : Int) : Int :=
  if ct < 140 then 140
  else if ct > 500 then 500
  else ct

/-- Go: `Z2MStateToBool(state string) bool` — true exactly on the token "ON". -/
def Z2MStateToBool (state : String) : Bool :=
  state == "ON"

/-- Go: `BoolToZ2MState(on bool) string`. -/
def BoolToZ2MState (b : Bool) : String :=
  if b then "ON" else "OFF"

/-! ## Event types (src/events/types.go) -/

namespace events

/-- Go: `StateUpdateEvent` in src/events/types.go. Timestamps are `Nat`
ticks; float64 fields are `Rat`. -/
structure StateUpdateEvent where
  Timestamp : Nat
  Source : String
  DeviceID : String
  Name : String
  Temperature : Option Rat
  Humidity : Option Rat
  Battery : Option Int
  Occupancy : Option Bool
  Illuminance : Option Int
  Pressure : Option Rat
  Contact : Option Bool
  WaterLeak : Option Bool
  Smoke : Option Bool
  Tamper : Option Bool
  On : Option Bool
  Brightness : Option Int
  Hue : Option Rat
  Saturation : Option Rat
  ColorTemp : Option Int
  FanSpeed : Option Int
  LinkQuality : Int
  LastSeen : Nat
  LastUpdated : Nat
  ConnectionState : String
  ConnectionNote : String
  deriving Repr, DecidableEq

/-- Go: `ptrBoolEqual` in src/events/types.go. -/
def ptrBoolEqual (a b : Option Bool) : Bool :=
  match a, b with
  | none, none => true
  | some x, some y => x == y
  | _, _ => false

/-- Go: `ptrIntEqual` in src/events/types.go. -/
def ptrIntEqual (a b : Option Int) : Bool :=
  match a, b with
  | none, none => true
  | some x, some y => x == y
  | _, _ => false

/-- Go: `ptrFloatEqual` in src/events/types.go: equality up to an epsilon
of 0.001 (the Go literal `0.001` is modelled by the rational `1/1000`). -/
def ptrFloatEqual (a b : Option Rat) : Bool :=
  match a, b with
  | none, none => true
  | some x, some y =>
    let diff := x - y
    let diff := if diff < 0 then -diff else diff
    diff < 1/1000
  | _, _ => false

/-- Go: `StateUpdateEvent.Equals` in src/events/types.go: compares every
field except `Timestamp` and `Source`; note that `LastSeen` and
`LastUpdated` ARE compared (via `time.Time.Equal`). -/
def StateUpdateEvent.Equals (e other : StateUpdateEvent) : Bool :=
  e.DeviceID == other.DeviceID &&
  e.Name == other.Name &&
  ptrBoolEqual e.On other.On &&
  ptrIntEqual e.Brightness other.Brightness &&
  ptrFloatEqual e.Hue other.Hue &&
  ptrFloatEqual e.Saturation other.Saturation &&
  ptrIntEqual e.ColorTemp other.ColorTemp &&
  ptrFloatEqual e.Temperature other.Temperature &&
  ptrFloatEqual e.Humidity other.Humidity &&
  ptrIntEqual e.Battery other.Battery &&
  ptrBoolEqual e.Occupancy other.Occupancy &&
  ptrIntEqual e.Illuminance other.Illuminance &&
  ptrFloatEqual e.Pressure other.Pressure &&
  ptrBoolEqual e.Contact other.Contact &&
  ptrBoolEqual e.WaterLeak other.WaterLeak &&
  ptrBoolEqual e.Smoke other.Smoke &&
  ptrBoolEqual e.Tamper other.Tamper &&
  ptrIntEqual e.FanSpeed other.FanSpeed &&
  e.LinkQuality == other.LinkQuality &&
  e.LastSeen == other.LastSeen &&
  e.LastUpdated == other.LastUpdated &&
  e.ConnectionState == other.ConnectionState &&
  e.ConnectionNote == other.ConnectionNote

end events

/-! ## Deduplicating event bus (src/events/bus.go) -/

namespace events

/-- Association-list lookup modelling a Go map read (`m[k]` with the
comma-ok form). -/
def mapLookup {α : Type} (m : List (String × α)) (k : String) : Option α :=
  match m with
  | [] => none
  | (k2, v) :: rest => if k2 == k then some v else mapLookup rest k

/-- Association-list insert-or-replace modelling a Go map write `m[k] = v`. -/
def mapInsert {α : Type} (m : List (String × α)) (k : String) (v : α) :
    List (String × α) :=
  match m with
  | [] => [(k, v)]
  | (k2, v2) :: rest =>
    if k2 == k then (k2, v) :: rest else (k2, v2) :: mapInsert rest k v

/-- The deduplication state of `events.Bus`: the per-device last forwarded
`StateUpdateEvent` (field `lastStates` in src/events/bus.go). -/
structure Bus where
  lastStates : List (String × StateUpdateEvent)
  deriving Repr

/-- A bus with no retained state, as built by `events.New`. -/
def Bus.empty : Bus := ⟨[]⟩

/-- Go: `Bus.PublishStateUpdate` in src/events/bus.go. Returns the updated
bus together with the list of events actually forwarded to subscribers
(empty when the event is dropped as a duplicate). -/
def Bus.PublishStateUpdate (b : Bus) (event : StateUpdateEvent) :
    Bus × List StateUpdateEvent :=
  match mapLookup b.lastStates event.DeviceID with
  | some last =>
    if event.Equals last then (b, [])
    else (⟨mapInsert b.lastStates event.DeviceID event⟩, [event])
  | none => (⟨mapInsert b.lastStates event.DeviceID event⟩, [event])

end events

/-! ## Device registry and config loading (src/devices/types.go) -/

namespace devices

/-- Go: `DeviceFeatures` in src/devices/types.go. -/
structure DeviceFeatures where
  Temperature : Bool := false
  Humidity : Bool := false
  Battery : Bool := false
  Occupancy : Bool := false
  Illuminance : Bool := false
  Pressure : Bool := false
  Contact : Bool := false
  WaterLeak : Bool := false
  Smoke : Bool := false
  Tamper : Bool := false
  Brightness : Bool := false
  Color : Bool := false
  ColorTemperature : Bool := false
  Speed : Bool := false
  Direction : Bool := false
  Swing : Bool := false
  deriving Repr, DecidableEq

/-- Go: `Device` in src/devices/types.go. `DeviceType` is a string type in
Go, modelled as `String`; `HomeKit`/`Web` are optional booleans defaulting
to true at load time. -/
structure Device where
  ID : String
  Name : String
  Topic : String
  Typ : String
  Features : DeviceFeatures := {}
  HomeKit : Option Bool := none
  Web : Option Bool := none
  deriving Repr, DecidableEq

/-- Go: `Config` in src/devices/types.go. -/
structure Config where
  Devices : List Device
  deriving Repr, DecidableEq

/-- Go: `isValidDeviceType` in src/devices/types.go. -/
def isValidDeviceType (t : String) : Bool :=
  t == "climate_sensor" || t == "occupancy_sensor" || t == "contact_sensor" ||
  t == "leak_sensor" || t == "smoke_sensor" || t == "lightbulb" ||
  t == "outlet" || t == "switch" || t == "fan"

/-- The per-device validation loop of Go `LoadConfig` (src/devices/types.go
lines 89-121): index `i` feeds the error messages, `seen` is the `seenIDs`
set, and the HomeKit/Web defaults are applied to each surviving device. -/
def validateDevices (i : Nat) (seen : List String) :
    List Device → Except String (List Device)
  | [] => .ok []
  | d :: rest =>
    if d.ID = "" then .error ("device " ++ toString i ++ " has no ID")
    else if d.Name = "" then .error ("device " ++ d.ID ++ " has no name")
    else if d.Topic = "" then .error ("device " ++ d.ID ++ " has no topic")
    else if d.Typ = "" then .error ("device " ++ d.ID ++ " has no type")
    else if ¬ isValidDeviceType d.Typ then
      .error ("device " ++ d.ID ++ " has invalid type " ++ d.Typ)
    else if d.ID ∈ seen then .error ("duplicate device id " ++ d.ID)
    else
      match validateDevices (i + 1) (d.ID :: seen) rest with
      | .ok ds =>
        .ok ({ d with
                HomeKit := some (d.HomeKit.getD true)
                Web := some (d.Web.getD true) } :: ds)
      | .error e => .error e

/-- Go: `LoadConfig` in src/devices/types.go, starting after the HuJSON
parse (file reading and JSON decoding are external collaborators): the
no-devices check followed by the validation loop. On any validation error
Go returns `(nil, err)` — no registry. -/
def LoadConfig (devs : List Device) : Except String Config :=
  if devs.length = 0 then .error "no devices configured"
  else (validateDevices 0 [] devs).map Config.mk

/-! ## Device state and the merge loop (src/devices/manager.go) -/

/-- Go: `State` in src/devices/types.go. Timestamps are `Nat` ticks. -/
structure State where
  ID : String := ""
  Name : String := ""
  Temperature : Option Rat := none
  Humidity : Option Rat := none
  Battery : Option Int := none
  Occupancy : Option Bool := none
  Illuminance : Option Int := none
  Pressure : Option Rat := none
  Contact : Option Bool := none
  WaterLeak : Option Bool := none
  Smoke : Option Bool := none
  Tamper : Option Bool := none
  On : Option Bool := none
  Brightness : Option Int := none
  Hue : Option Rat := none
  Saturation : Option Rat := none
  ColorTemp : Option Int := none
  FanSpeed : Option Int := none
  FanDirection : Option Bool := none
  FanSwing : Option Bool := none
  LinkQuality : Int := 0
  LastUpdated : Nat := 0
  LastSeen : Nat := 0
  deriving Repr, DecidableEq

/-- Go: `StateChangedEvent` in src/devices/types.go. -/
structure StateChangedEvent where
  DeviceID : String
  State : State
  UpdatedFields : List String
  deriving Repr, DecidableEq

/-- One iteration of the selective-merge switch in
`Manager.ProcessStateEvents` (src/devices/manager.go lines 274-315):
copies the named field from the candidate state `ev` into `st`, leaving
every other field alone; unrecognized names fall through. -/
def applyField (ev : State) (st : State) (field : String) : State :=
  if field = "On" then { st with On := ev.On }
  else if field = "Brightness" then { st with Brightness := ev.Brightness }
  else if field = "Hue" then { st with Hue := ev.Hue }
  else if field = "Saturation" then { st with Saturation := ev.Saturation }
  else if field = "ColorTemp" then { st with ColorTemp := ev.ColorTemp }
  else if field = "Temperature" then { st with Temperature := ev.Temperature }
  else if field = "Humidity" then { st with Humidity := ev.Humidity }
  else if field = "Battery" then { st with Battery := ev.Battery }
  else if field = "Occupancy" then { st with Occupancy := ev.Occupancy }
  else if field = "Illuminance" then { st with Illuminance := ev.Illuminance }
  else if field = "Pressure" then { st with Pressure := ev.Pressure }
  else if field = "Contact" then { st with Contact := ev.Contact }
  else if field = "WaterLeak" then { st with WaterLeak := ev.WaterLeak }
  else if field = "Smoke" then { st with Smoke := ev.Smoke }
  else if field = "Tamper" then { st with Tamper := ev.Tamper }
  else if field = "FanSpeed" then { st with FanSpeed := ev.FanSpeed }
  else if field = "LinkQuality" then { st with LinkQuality := ev.LinkQuality }
  else if field = "LastSeen" then { st with LastSeen := ev.LastSeen }
  else if field = "LastUpdated" then { st with LastUpdated := ev.LastUpdated }
  else st

/-- The selective-merge loop of `Manager.ProcessStateEvents`: for each
named changed field, in order, overwrite only that field in the stored
state with the value from the event candidate state. (The enclosing Go
`if len(event.UpdatedFields) > 0` guard is redundant: the loop over an
empty list does nothing.) -/
def mergeState (st : State) (event : StateChangedEvent) : State :=
  event.UpdatedFields.foldl (applyField event.State) st

/-- Go: `connectionStatus(lastSeen)` in src/devices/manager.go, with `now`
passed explicitly in place of `time.Since`. The human-readable note keeps
the shape of the Go format string with integral seconds. -/
def connectionStatus (now lastSeen : Nat) : String × String :=
  if lastSeen = 0 then ("disconnected", "Never seen")
  else
    let since := now - lastSeen
    if since < 30 then ("connected", "Last seen: " ++ toString since ++ "s ago")
    else if since < 60 then ("stale", "Last seen: " ++ toString since ++ "s ago")
    else ("disconnected", "Last seen: " ++ toString since ++ "s ago")

/-- The in-memory maps of Go `devices.Manager`: `devices` (id to config)
and `states` (id to state). The `Info` wrapper around `Device` is elided. -/
structure Manager where
  devices : List (String × Device)
  states : List (String × State)
  deriving Repr

/-- Go: `Manager.publishStateUpdate` in src/devices/manager.go: builds the
`events.StateUpdateEvent` handed to `Bus.PublishStateUpdate` from a state
copy — name lookup with the device id as fallback, brightness converted to
the HAP scale, connectivity classified from `LastSeen`, `Timestamp` set to
now. -/
def buildStateUpdate (dm : Manager) (now : Nat) (source deviceID : String)
    (state : State) : Z2M.events.StateUpdateEvent :=
  let name := match Z2M.events.mapLookup dm.devices deviceID with
    | some info => info.Name
    | none => deviceID
  let cs := connectionStatus now state.LastSeen
  let brightnessHAP := state.Brightness.map Z2M.Z2MBrightnessToHAP
  { Timestamp := now
    Source := source
    DeviceID := deviceID
    Name := name
    On := state.On
    Brightness := brightnessHAP
    Hue := state.Hue
    Saturation := state.Saturation
    ColorTemp := state.ColorTemp
    Temperature := state.Temperature
    Humidity := state.Humidity
    Battery := state.Battery
    Occupancy := state.Occupancy
    Illuminance := state.Illuminance
    Pressure := state.Pressure
    Contact := state.Contact
    WaterLeak := state.WaterLeak
    Smoke := state.Smoke
    Tamper := state.Tamper
    FanSpeed := state.FanSpeed
    LinkQuality := state.LinkQuality
    LastSeen := state.LastSeen
    LastUpdated := state.LastUpdated
    ConnectionState := cs.1
    ConnectionNote := cs.2 }

/-- One iteration of Go `Manager.ProcessStateEvents`
(src/devices/manager.go lines 263-325) on a single received event: unknown
device ids are dropped with a warning (no mutation, no emission, no
panic); otherwise the selective merge runs under the lock and a
`StateUpdate` built from the post-merge state is submitted to the
deduplicating publisher with source tag "eventbus". The second component
is the submitted event, if any. -/
def processStateEvent (dm : Manager) (now : Nat) (event : StateChangedEvent) :
    Manager × Option Z2M.events.StateUpdateEvent :=
  match Z2M.events.mapLookup dm.states event.DeviceID with
  | none => (dm, none)
  | some state =>
    let merged := mergeState state event
    let dm2 := { dm with
      states := Z2M.events.mapInsert dm.states event.DeviceID merged }
    (dm2, some (buildStateUpdate dm2 now "eventbus" event.DeviceID merged))

/-- Go: `Manager.SetBrightness` in src/devices/manager.go: looks the
device up, converts HAP brightness to the Z2M scale, and issues exactly
one MQTT publish to `zigbee2mqtt/<topic>/set` with the JSON payload
produced by `json.Marshal(map[string]interface\x7b\x7d{brightness: z2m})`.
The returned list records the (topic, payload) publish calls. -/
def SetBrightness (dm : Manager) (deviceID : String) (brightness : Int) :
    Except String (List (String × String)) :=
  match Z2M.events.mapLookup dm.devices deviceID with
  | none => .error ("device " ++ deviceID ++ " not found")
  | some info =>
    let topic := "zigbee2mqtt/" ++ info.Topic ++ "/set"
    let z2mBrightness := Z2M.HAPBrightnessToZ2M brightness
    let payload := "\x7b\"brightness\":" ++ toString z2mBrightness ++ "\x7d"
    .ok [(topic, payload)]

end devices

/-! ## MQTT ingestion (src/mqtt.go) -/

namespace mqtt

/-- A parsed JSON value as produced by Go `json.Unmarshal` into
`map[string]interface\x7b\x7d`: numbers arrive as float64 (modelled as
`Rat`), plus strings, booleans, nested objects, and anything else
(null, arrays) collapsed to `other` since the parser only type-asserts
the four shapes above. -/
inductive JsonVal where
  | num (q : Rat)
  | str (s : String)
  | bool (b : Bool)
  | obj (fields : List (String × JsonVal))
  | other

/-- Go `int(f)` on a float64: truncation toward zero (exact here because
payload values carry through `Rat`). -/
def goInt (q : Rat) : Int :=
  if q < 0 then q.ceil else q.floor

/-- Go type assertion `msg[k].(float64)`. -/
def getNum (msg : List (String × JsonVal)) (k : String) : Option Rat :=
  match Z2M.events.mapLookup msg k with
  | some (.num q) => some q
  | _ => none

/-- Go type assertion `msg[k].(string)`. -/
def getStr (msg : List (String × JsonVal)) (k : String) : Option String :=
  match Z2M.events.mapLookup msg k with
  | some (.str s) => some s
  | _ => none

/-- Go type assertion `msg[k].(bool)`. -/
def getBool (msg : List (String × JsonVal)) (k : String) : Option Bool :=
  match Z2M.events.mapLookup msg k with
  | some (.bool b) => some b
  | _ => none

/-- Go type assertion `msg[k].(map[string]interface\x7b\x7d)`. -/
def getObj (msg : List (String × JsonVal)) (k : String) :
    Option (List (String × JsonVal)) :=
  match Z2M.events.mapLookup msg k with
  | some (.obj fields) => some fields
  | _ => none

/-- The Go fan_mode switch in `parseZ2MMessage` (src/mqtt.go lines
246-260): categorical mode to fixed speed percentage, any unrecognized
mode defaulting to 50. -/
def fanModeToSpeed (fanMode : String) : Int :=
  if fanMode = "off" then 0
  else if fanMode = "low" then 33
  else if fanMode = "medium" then 66
  else if fanMode = "high" then 100
  else if fanMode = "auto" then 50
  else 50

/-- One `if value, ok := msg[key].(T); ok` block of Go `parseZ2MMessage`:
when the typed lookup succeeds, apply the field write and append the field
name; otherwise pass the accumulator through. -/
def parseStep {β : Type} (get : Option β)
    (upd : β → Z2M.devices.State → Z2M.devices.State) (name : String)
    (x : Z2M.devices.State × List String) :
    Z2M.devices.State × List String :=
  match get with
  | some v => (upd v x.1, x.2 ++ [name])
  | none => x

/-- The nested `color` object block of Go `parseZ2MMessage` (src/mqtt.go
lines 217-226): hue and saturation sub-fields. -/
def colorStep (msg : List (String × JsonVal))
    (x : Z2M.devices.State × List String) :
    Z2M.devices.State × List String :=
  match getObj msg "color" with
  | some color =>
    parseStep (getNum color "saturation")
      (fun s st => { st with Saturation := some s }) "Saturation"
      (parseStep (getNum color "hue")
        (fun h st => { st with Hue := some h }) "Hue" x)
  | none => x

/-- Go: `MQTTHook.parseZ2MMessage` in src/mqtt.go, with `now` passed
explicitly in place of `time.Now()`. Mirrors the source key-by-key in
program order: each recognized, correctly-typed key overwrites the
corresponding state field and appends its field name; the connectivity
field names `LastSeen`/`LastUpdated` are always appended at the end, and
the initial state carries `LastSeen = LastUpdated = now`. -/
def parseZ2MMessage (device : Z2M.devices.Device) (now : Nat)
    (msg : List (String × JsonVal)) : Z2M.devices.State × List String :=
  let x : Z2M.devices.State × List String :=
    ({ ID := device.ID, Name := device.Name,
       LastSeen := now, LastUpdated := now }, [])
  let x := parseStep (getNum msg "linkquality")
    (fun lq st => { st with LinkQuality := goInt lq }) "LinkQuality" x
  let x := parseStep (getNum msg "temperature")
    (fun t st => { st with Temperature := some t }) "Temperature" x
  let x := parseStep (getNum msg "humidity")
    (fun h st => { st with Humidity := some h }) "Humidity" x
  let x := parseStep (getNum msg "battery")
    (fun b st => { st with Battery := some (goInt b) }) "Battery" x
  let x := parseStep (getBool msg "occupancy")
    (fun o st => { st with Occupancy := some o }) "Occupancy" x
  let x := parseStep (getNum msg "illuminance")
    (fun i st => { st with Illuminance := some (goInt i) }) "Illuminance" x
  let x := parseStep (getNum msg "illuminance_lux")
    (fun i st => { st with Illuminance := some (goInt i) }) "Illuminance" x
  let x := parseStep (getNum msg "pressure")
    (fun p st => { st with Pressure := some p }) "Pressure" x
  let x := parseStep (getBool msg "contact")
    (fun c st => { st with Contact := some c }) "Contact" x
  let x := parseStep (getBool msg "water_leak")
    (fun w st => { st with WaterLeak := some w }) "WaterLeak" x
  let x := parseStep (getBool msg "smoke")
    (fun s st => { st with Smoke := some s }) "Smoke" x
  let x := parseStep (getBool msg "tamper")
    (fun t st => { st with Tamper := some t }) "Tamper" x
  let x := parseStep (getStr msg "state")
    (fun s st => { st with On := some (Z2M.Z2MStateToBool s) }) "On" x
  let x := parseStep (getNum msg "brightness")
    (fun b st => { st with Brightness := some (goInt b) }) "Brightness" x
  let x := parseStep (getNum msg "color_temp")
    (fun ct st => { st with ColorTemp := some (goInt ct) }) "ColorTemp" x
  let x := colorStep msg x
  let x := parseStep (getStr msg "fan_state")
    (fun s st => { st with On := some (Z2M.Z2MStateToBool s) }) "On" x
  let x := parseStep (getNum msg "fan_speed")
    (fun sp st => { st with FanSpeed := some (goInt sp) }) "FanSpeed" x
  let x := parseStep (getStr msg "fan_mode")
    (fun mode st => { st with FanSpeed := some (fanModeToSpeed mode) })
    "FanSpeed" x
  (x.1, x.2 ++ ["LastSeen", "LastUpdated"])

end mqtt

/-! ## HomeKit state application (src/hap.go UpdateState) -/

namespace hap

/-- A value written to a HAP characteristic: HAP integer enums and levels,
booleans, or float64 values (as `Rat`). -/
inductive HVal where
  | int (i : Int)
  | bool (b : Bool)
  | num (q : Rat)
  deriving Repr, DecidableEq

/-- Which services/characteristics exist on a constructed accessory — the
non-nil pointers of Go `AccessoryInfo` in src/hap.go. -/
structure AccessoryInfo where
  temperature : Bool := false
  humidity : Bool := false
  occupancy : Bool := false
  battery : Bool := false
  contact : Bool := false
  leak : Bool := false
  smoke : Bool := false
  lightbulb : Bool := false
  outlet : Bool := false
  brightness : Bool := false
  hue : Bool := false
  saturation : Bool := false
  colorTemperature : Bool := false
  fan : Bool := false
  fanRotation : Bool := false
  deriving Repr, DecidableEq

/-- One `if accInfo.X != nil && event.Y != nil` block of Go `UpdateState`:
the SetValue calls it makes when the characteristic exists and the event
field is non-nil, nothing otherwise. -/
def guardWrite {α : Type} (present : Bool) (field : Option α)
    (mk : α → List (String × HVal)) : List (String × HVal) :=
  match present, field with
  | true, some v => mk v
  | _, _ => []

/-- Go: `HAPManager.UpdateState` in src/hap.go (lines 458-564) for a
single accessory: the ordered list of characteristic SetValue calls made
for a state update event, each guarded by presence of the characteristic
and non-nilness of the event field. The contact branch applies the
documented Z2M inversion: true (closed) maps to 0 (DETECTED), false
(open) maps to 1 (NOT_DETECTED). -/
def UpdateState (acc : AccessoryInfo) (event : Z2M.events.StateUpdateEvent) :
    List (String × HVal) :=
  guardWrite acc.temperature event.Temperature
    (fun t => [("CurrentTemperature", HVal.num t)]) ++
  guardWrite acc.humidity event.Humidity
    (fun h => [("CurrentRelativeHumidity", HVal.num h)]) ++
  guardWrite acc.occupancy event.Occupancy
    (fun o => [("OccupancyDetected", HVal.int (if o then 1 else 0))]) ++
  guardWrite acc.battery event.Battery
    (fun b =>
      [("BatteryLevel", HVal.int b),
       ("StatusLowBattery", HVal.int (if b < 20 then 1 else 0))]) ++
  guardWrite acc.contact event.Contact
    (fun c => [("ContactSensorState", HVal.int (if c then 0 else 1))]) ++
  guardWrite acc.leak event.WaterLeak
    (fun w => [("LeakDetected", HVal.int (if w then 1 else 0))]) ++
  guardWrite acc.smoke event.Smoke
    (fun s => [("SmokeDetected", HVal.int (if s then 1 else 0))]) ++
  guardWrite acc.lightbulb event.On
    (fun o => [("Lightbulb.On", HVal.bool o)]) ++
  guardWrite acc.outlet event.On
    (fun o => [("Outlet.On", HVal.bool o)]) ++
  guardWrite acc.brightness event.Brightness
    (fun b => [("Brightness", HVal.int b)]) ++
  guardWrite acc.hue event.Hue
    (fun h => [("Hue", HVal.num h)]) ++
  guardWrite acc.saturation event.Saturation
    (fun s => [("Saturation", HVal.num s)]) ++
  guardWrite acc.colorTemperature event.ColorTemp
    (fun ct => [("ColorTemperature", HVal.int (Z2M.ClampColorTemp ct))]) ++
  guardWrite acc.fan event.On
    (fun o => [("Fan.On", HVal.bool o)]) ++
  guardWrite acc.fanRotation event.FanSpeed
    (fun sp => [("RotationSpeed", HVal.num (sp : Rat))])

end hap

end Z2M

namespace Z2MSpec

/-- Modelled from the claim wording for C1 (not from the source): two
`StateUpdateEvent`s are field-for-field value-equal with timestamps
excluded when every field other than the three timestamp fields
(`Timestamp`, `LastSeen`, `LastUpdated`) is equal. -/
def valueEqualExclTimestamps (a b : Z2M.events.StateUpdateEvent) : Prop :=
  a.Source = b.Source ∧
  a.DeviceID = b.DeviceID ∧
  a.Name = b.Name ∧
  a.Temperature = b.Temperature ∧
  a.Humidity = b.Humidity ∧
  a.Battery = b.Battery ∧
  a.Occupancy = b.Occupancy ∧
  a.Illuminance = b.Illuminance ∧
  a.Pressure = b.Pressure ∧
  a.Contact = b.Contact ∧
  a.WaterLeak = b.WaterLeak ∧
  a.Smoke = b.Smoke ∧
  a.Tamper = b.Tamper ∧
  a.On = b.On ∧
  a.Brightness = b.Brightness ∧
  a.Hue = b.Hue ∧
  a.Saturation = b.Saturation ∧
  a.ColorTemp = b.ColorTemp ∧
  a.FanSpeed = b.FanSpeed ∧
  a.LinkQuality = b.LinkQuality ∧
  a.ConnectionState = b.ConnectionState ∧
  a.ConnectionNote = b.ConnectionNote

instance (a b : Z2M.events.StateUpdateEvent) :
    Decidable (valueEqualExclTimestamps a b) := by
  unfold valueEqualExclTimestamps; infer_instance

/-- Modelled from the claim wording for the amended C1: two
`StateUpdateEvent`s are value-equal excluding only the envelope fields
`Timestamp` and `Source`; in particular `LastSeen` and `LastUpdated`
must agree. -/
def valueEqualExclEnvelope (a b : Z2M.events.StateUpdateEvent) : Prop :=
  a.DeviceID = b.DeviceID ∧
  a.Name = b.Name ∧
  a.Temperature = b.Temperature ∧
  a.Humidity = b.Humidity ∧
  a.Battery = b.Battery ∧
  a.Occupancy = b.Occupancy ∧
  a.Illuminance = b.Illuminance ∧
  a.Pressure = b.Pressure ∧
  a.Contact = b.Contact ∧
  a.WaterLeak = b.WaterLeak ∧
  a.Smoke = b.Smoke ∧
  a.Tamper = b.Tamper ∧
  a.On = b.On ∧
  a.Brightness = b.Brightness ∧
  a.Hue = b.Hue ∧
  a.Saturation = b.Saturation ∧
  a.ColorTemp = b.ColorTemp ∧
  a.FanSpeed = b.FanSpeed ∧
  a.LinkQuality = b.LinkQuality ∧
  a.LastSeen = b.LastSeen ∧
  a.LastUpdated = b.LastUpdated ∧
  a.ConnectionState = b.ConnectionState ∧
  a.ConnectionNote = b.ConnectionNote

instance (a b : Z2M.events.StateUpdateEvent) :
    Decidable (valueEqualExclEnvelope a b) := by
  unfold valueEqualExclEnvelope; infer_instance

end Z2MSpec

/-! ## Helper lemmas -/

namespace Z2M

/-- `Z2MBrightnessToHAP` is monotone non-decreasing on all of `Int`. -/
lemma Z2MBrightnessToHAP_mono {a b : Int} (h : a ≤ b) :
    Z2MBrightnessToHAP a ≤ Z2MBrightnessToHAP b := by
  unfold Z2MBrightnessToHAP
  split_ifs <;> omega

/-- `HAPBrightnessToZ2M` is monotone non-decreasing on all of `Int`. -/
lemma HAPBrightnessToZ2M_mono {a b : Int} (h : a ≤ b) :
    HAPBrightnessToZ2M a ≤ HAPBrightnessToZ2M b := by
  unfold HAPBrightnessToZ2M
  split_ifs <;> omega

/-- Finite check backing the round-trip bound: over naturals below 101 the
composition stays within one unit. -/
lemma roundtrip_bounded_nat :
    ∀ p : Nat, p < 101 →
      (Z2MBrightnessToHAP (HAPBrightnessToZ2M (p : Int)) - (p : Int)).natAbs ≤ 1 := by
  decide

end Z2M

/-! ## Claim theorems -/

/-- Claim C3: for every integer p in [0,100], the composition of the
percent-to-bus brightness conversion followed by the bus-to-percent
conversion differs from p by at most 1 in absolute value. -/
theorem C3_brightness_roundtrip (p : Int) (h0 : 0 ≤ p) (h1 : p ≤ 100) :
    (Z2M.Z2MBrightnessToHAP (Z2M.HAPBrightnessToZ2M p) - p).natAbs ≤ 1 := by
  have hn : ((p.toNat : Nat) : Int) = p := Int.toNat_of_nonneg h0
  have hb : p.toNat < 101 := by omega
  have := Z2M.roundtrip_bounded_nat p.toNat hb
  rwa [hn] at this

/-- Witness for C3 at p = 75. -/
theorem C3_brightness_roundtrip_witness :
    (Z2M.Z2MBrightnessToHAP (Z2M.HAPBrightnessToZ2M 75) - 75).natAbs ≤ 1 :=
  C3_brightness_roundtrip 75 (by norm_num) (by norm_num)

/-- Claim C9: both brightness conversions are monotone non-decreasing over
all integers. -/
theorem C9_brightness_conversions_monotone (a b : Int) (h : a ≤ b) :
    Z2M.Z2MBrightnessToHAP a ≤ Z2M.Z2MBrightnessToHAP b ∧
    Z2M.HAPBrightnessToZ2M a ≤ Z2M.HAPBrightnessToZ2M b :=
  ⟨Z2M.Z2MBrightnessToHAP_mono h, Z2M.HAPBrightnessToZ2M_mono h⟩

/-- Witness for C9 at a = 100, b = 200. -/
theorem C9_brightness_conversions_monotone_witness :
    Z2M.Z2MBrightnessToHAP 100 ≤ Z2M.Z2MBrightnessToHAP 200 ∧
    Z2M.HAPBrightnessToZ2M 100 ≤ Z2M.HAPBrightnessToZ2M 200 :=
  C9_brightness_conversions_monotone 100 200 (by norm_num)

/-- Claim C5: a state-changed event for a device id absent from the
registry leaves every stored state untouched and emits nothing; the
processing step is a total function, so no panic and no termination. -/
theorem C5_unknown_device_dropped (dm : Z2M.devices.Manager) (now : Nat)
    (e : Z2M.devices.StateChangedEvent)
    (h : Z2M.events.mapLookup dm.states e.DeviceID = none) :
    Z2M.devices.processStateEvent dm now e = (dm, none) := by
  unfold Z2M.devices.processStateEvent
  rw [h]

/-- Witness for C5: an event for id "ghost" against a manager that only
knows device "d1". -/
theorem C5_unknown_device_dropped_witness :
    Z2M.devices.processStateEvent
      ⟨[("d1", { ID := "d1", Name := "Lamp", Topic := "lamp", Typ := "lightbulb" })],
       [("d1", { ID := "d1", Name := "Lamp" })]⟩
      42
      ⟨"ghost", { ID := "ghost" }, ["Temperature"]⟩ =
    (⟨[("d1", { ID := "d1", Name := "Lamp", Topic := "lamp", Typ := "lightbulb" })],
      [("d1", { ID := "d1", Name := "Lamp" })]⟩, none) :=
  C5_unknown_device_dropped _ 42 _ (by decide)

/-- Claim C6: for every registered device, a brightness command with value
75 on the HAP percent scale produces exactly one publish, to the topic
zigbee2mqtt/(routing key)/set, with JSON payload \x7b"brightness":190\x7d
(75*254/100 truncated). -/
theorem C6_brightness_command (dm : Z2M.devices.Manager) (deviceID : String)
    (info : Z2M.devices.Device)
    (h : Z2M.events.mapLookup dm.devices deviceID = some info) :
    Z2M.devices.SetBrightness dm deviceID 75 =
      .ok [("zigbee2mqtt/" ++ info.Topic ++ "/set", "\x7b\"brightness\":190\x7d")] := by
  unfold Z2M.devices.SetBrightness
  rw [h]
  have h190 : Z2M.HAPBrightnessToZ2M 75 = 190 := by decide
  rw [h190]
  rfl

/-- Filtering distributes over a guarded characteristic write. -/
lemma filter_guardWrite {α : Type} (p : String × Z2M.hap.HVal → Bool)
    (b : Bool) (o : Option α) (mk : α → List (String × Z2M.hap.HVal)) :
    (Z2M.hap.guardWrite b o mk).filter p =
      Z2M.hap.guardWrite b o (fun v => (mk v).filter p) := by
  cases b <;> cases o <;> rfl

/-- A guarded write whose body is empty contributes nothing. -/
lemma guardWrite_const_nil {α : Type} (b : Bool) (o : Option α) :
    Z2M.hap.guardWrite b o (fun _ => ([] : List (String × Z2M.hap.HVal))) = [] := by
  cases b <;> cases o <;> rfl

/-- A guarded write fires when the characteristic exists and the field is
present. -/
lemma guardWrite_true_some {α : Type} (v : α)
    (mk : α → List (String × Z2M.hap.HVal)) :
    Z2M.hap.guardWrite true (some v) mk = mk v := rfl

/-- Claim C7: for every contact-sensor accessory and every state update
whose contact field is non-null, the single write to the HAP
ContactSensorState characteristic carries 0 (DETECTED) when the bus
contact boolean is true (closed) and 1 (NOT_DETECTED) when it is false —
the inverted mapping. -/
theorem C7_contact_inversion (acc : Z2M.hap.AccessoryInfo)
    (e : Z2M.events.StateUpdateEvent) (c : Bool)
    (hacc : acc.contact = true) (hc : e.Contact = some c) :
    (Z2M.hap.UpdateState acc e).filter (fun w => w.1 == "ContactSensorState") =
      [("ContactSensorState", Z2M.hap.HVal.int (if c then 0 else 1))] := by
  unfold Z2M.hap.UpdateState
  rw [hacc, hc]
  simp only [List.filter_append, filter_guardWrite]
  simp [guardWrite_const_nil, guardWrite_true_some]

/-- Witness for C7: a contact-only accessory receiving contact=true
(closed) yields the DETECTED (0) write. -/
theorem C7_contact_inversion_witness :
    (Z2M.hap.UpdateState { contact := true }
      { Timestamp := 0, Source := "eventbus", DeviceID := "d1", Name := "Door",
        Temperature := none, Humidity := none, Battery := none,
        Occupancy := none, Illuminance := none, Pressure := none,
        Contact := some true, WaterLeak := none, Smoke := none,
        Tamper := none, On := none, Brightness := none, Hue := none,
        Saturation := none, ColorTemp := none, FanSpeed := none,
        LinkQuality := 0, LastSeen := 0, LastUpdated := 0,
        ConnectionState := "disconnected", ConnectionNote := "Never seen" }).filter
      (fun w => w.1 == "ContactSensorState") =
    [("ContactSensorState", Z2M.hap.HVal.int 0)] := by
  have := C7_contact_inversion { contact := true }
    { Timestamp := 0, Source := "eventbus", DeviceID := "d1", Name := "Door",
      Temperature := none, Humidity := none, Battery := none,
      Occupancy := none, Illuminance := none, Pressure := none,
      Contact := some true, WaterLeak := none, Smoke := none,
      Tamper := none, On := none, Brightness := none, Hue := none,
      Saturation := none, ColorTemp := none, FanSpeed := none,
      LinkQuality := 0, LastSeen := 0, LastUpdated := 0,
      ConnectionState := "disconnected", ConnectionNote := "Never seen" }
    true rfl rfl
  simpa using this

/-- Claim C10: an inbound message whose fan_mode string is none of the
five recognized modes still sets the fan-speed field, defaulting it to 50
percent, and the field list records FanSpeed; parsing is total, so no
error is produced. -/
theorem C10_fan_mode_default (dev : Z2M.devices.Device) (now : Nat)
    (msg : List (String × Z2M.mqtt.JsonVal)) (s : String)
    (hs : Z2M.mqtt.getStr msg "fan_mode" = some s)
    (h1 : s ≠ "off") (h2 : s ≠ "low") (h3 : s ≠ "medium") (h4 : s ≠ "high")
    (h5 : s ≠ "auto") :
    (Z2M.mqtt.parseZ2MMessage dev now msg).1.FanSpeed = some 50 ∧
    "FanSpeed" ∈ (Z2M.mqtt.parseZ2MMessage dev now msg).2 := by
  have hmode : Z2M.mqtt.fanModeToSpeed s = 50 := by
    unfold Z2M.mqtt.fanModeToSpeed
    rw [if_neg h1, if_neg h2, if_neg h3, if_neg h4, if_neg h5]
  unfold Z2M.mqtt.parseZ2MMessage
  rw [hs]
  simp [Z2M.mqtt.parseStep, hmode]

/-- Witness for C10 on the unrecognized mode "turbo". -/
theorem C10_fan_mode_default_witness :
    (Z2M.mqtt.parseZ2MMessage
        { ID := "f1", Name := "Fan", Topic := "fan", Typ := "fan" } 7
        [("fan_mode", Z2M.mqtt.JsonVal.str "turbo")]).1.FanSpeed = some 50 ∧
    "FanSpeed" ∈
      (Z2M.mqtt.parseZ2MMessage
        { ID := "f1", Name := "Fan", Topic := "fan", Typ := "fan" } 7
        [("fan_mode", Z2M.mqtt.JsonVal.str "turbo")]).2 :=
  C10_fan_mode_default _ 7 _ "turbo" rfl
    (by decide) (by decide) (by decide) (by decide) (by decide)

/-- Witness for C6 on a registered lightbulb with routing key "lamp". -/
theorem C6_brightness_command_witness :
    Z2M.devices.SetBrightness
      ⟨[("d1", { ID := "d1", Name := "Lamp", Topic := "lamp", Typ := "lightbulb" })],
       [("d1", { ID := "d1", Name := "Lamp" })]⟩
      "d1" 75 =
    .ok [("zigbee2mqtt/lamp/set", "\x7b\"brightness\":190\x7d")] :=
  C6_brightness_command _ "d1"
    { ID := "d1", Name := "Lamp", Topic := "lamp", Typ := "lightbulb" }
    (by decide)


/-! ## Merge frame lemmas (C2, C4) -/

namespace Z2M.devices

/-- Lookup after insert at the same key. -/
lemma mapLookup_mapInsert_self {A : Type} (m : List (String × A)) (k : String)
    (v : A) : Z2M.events.mapLookup (Z2M.events.mapInsert m k v) k = some v := by
  induction m with
  | nil => simp [Z2M.events.mapInsert, Z2M.events.mapLookup]
  | cons h rest ih =>
    obtain ⟨k2, v2⟩ := h
    by_cases hk : k2 = k <;>
      simp [Z2M.events.mapInsert, Z2M.events.mapLookup, hk, ih]
/-- Master case analysis for the selective-merge switch: a projection is
preserved by one switch application provided it is preserved under each
possible branch. -/
lemma applyField_proj {B : Type} (proj : State → B) (ev st : State)
    (f : String)
    (hOn : f = "On" → proj { st with On := ev.On } = proj st)
    (hBrightness : f = "Brightness" → proj { st with Brightness := ev.Brightness } = proj st)
    (hHue : f = "Hue" → proj { st with Hue := ev.Hue } = proj st)
    (hSaturation : f = "Saturation" → proj { st with Saturation := ev.Saturation } = proj st)
    (hColorTemp : f = "ColorTemp" → proj { st with ColorTemp := ev.ColorTemp } = proj st)
    (hTemperature : f = "Temperature" → proj { st with Temperature := ev.Temperature } = proj st)
    (hHumidity : f = "Humidity" → proj { st with Humidity := ev.Humidity } = proj st)
    (hBattery : f = "Battery" → proj { st with Battery := ev.Battery } = proj st)
    (hOccupancy : f = "Occupancy" → proj { st with Occupancy := ev.Occupancy } = proj st)
    (hIlluminance : f = "Illuminance" → proj { st with Illuminance := ev.Illuminance } = proj st)
    (hPressure : f = "Pressure" → proj { st with Pressure := ev.Pressure } = proj st)
    (hContact : f = "Contact" → proj { st with Contact := ev.Contact } = proj st)
    (hWaterLeak : f = "WaterLeak" → proj { st with WaterLeak := ev.WaterLeak } = proj st)
    (hSmoke : f = "Smoke" → proj { st with Smoke := ev.Smoke } = proj st)
    (hTamper : f = "Tamper" → proj { st with Tamper := ev.Tamper } = proj st)
    (hFanSpeed : f = "FanSpeed" → proj { st with FanSpeed := ev.FanSpeed } = proj st)
    (hLinkQuality : f = "LinkQuality" → proj { st with LinkQuality := ev.LinkQuality } = proj st)
    (hLastSeen : f = "LastSeen" → proj { st with LastSeen := ev.LastSeen } = proj st)
    (hLastUpdated : f = "LastUpdated" → proj { st with LastUpdated := ev.LastUpdated } = proj st)
    : proj (applyField ev st f) = proj st := by
  unfold applyField
  by_cases hc0 : f = "On"
  · rw [if_pos hc0]; exact hOn hc0
  · rw [if_neg hc0]
    by_cases hc1 : f = "Brightness"
    · rw [if_pos hc1]; exact hBrightness hc1
    · rw [if_neg hc1]
      by_cases hc2 : f = "Hue"
      · rw [if_pos hc2]; exact hHue hc2
      · rw [if_neg hc2]
        by_cases hc3 : f = "Saturation"
        · rw [if_pos hc3]; exact hSaturation hc3
        · rw [if_neg hc3]
          by_cases hc4 : f = "ColorTemp"
          · rw [if_pos hc4]; exact hColorTemp hc4
          · rw [if_neg hc4]
            by_cases hc5 : f = "Temperature"
            · rw [if_pos hc5]; exact hTemperature hc5
            · rw [if_neg hc5]
              by_cases hc6 : f = "Humidity"
              · rw [if_pos hc6]; exact hHumidity hc6
              · rw [if_neg hc6]
                by_cases hc7 : f = "Battery"
                · rw [if_pos hc7]; exact hBattery hc7
                · rw [if_neg hc7]
                  by_cases hc8 : f = "Occupancy"
                  · rw [if_pos hc8]; exact hOccupancy hc8
                  · rw [if_neg hc8]
                    by_cases hc9 : f = "Illuminance"
                    · rw [if_pos hc9]; exact hIlluminance hc9
                    · rw [if_neg hc9]
                      by_cases hc10 : f = "Pressure"
                      · rw [if_pos hc10]; exact hPressure hc10
                      · rw [if_neg hc10]
                        by_cases hc11 : f = "Contact"
                        · rw [if_pos hc11]; exact hContact hc11
                        · rw [if_neg hc11]
                          by_cases hc12 : f = "WaterLeak"
                          · rw [if_pos hc12]; exact hWaterLeak hc12
                          · rw [if_neg hc12]
                            by_cases hc13 : f = "Smoke"
                            · rw [if_pos hc13]; exact hSmoke hc13
                            · rw [if_neg hc13]
                              by_cases hc14 : f = "Tamper"
                              · rw [if_pos hc14]; exact hTamper hc14
                              · rw [if_neg hc14]
                                by_cases hc15 : f = "FanSpeed"
                                · rw [if_pos hc15]; exact hFanSpeed hc15
                                · rw [if_neg hc15]
                                  by_cases hc16 : f = "LinkQuality"
                                  · rw [if_pos hc16]; exact hLinkQuality hc16
                                  · rw [if_neg hc16]
                                    by_cases hc17 : f = "LastSeen"
                                    · rw [if_pos hc17]; exact hLastSeen hc17
                                    · rw [if_neg hc17]
                                      by_cases hc18 : f = "LastUpdated"
                                      · rw [if_pos hc18]; exact hLastUpdated hc18
                                      · rw [if_neg hc18]

/-- The selective-merge switch writes On only under the name "On". -/
lemma applyField_frame_On (ev : State) :
    ∀ st f, f ≠ "On" → (applyField ev st f).On = st.On := by
  intro st f hf
  apply applyField_proj (fun s => s.On) ev st f <;>
    intro h <;> first | rfl | exact absurd h hf

/-- The selective-merge switch under the name "On" installs the event
candidate value of On. -/
lemma applyField_set_On (ev st : State) :
    (applyField ev st "On").On = ev.On := by
  unfold applyField
  rw [if_pos (show ("On" : String) = "On" from rfl)]

/-- The selective-merge switch writes Brightness only under the name "Brightness". -/
lemma applyField_frame_Brightness (ev : State) :
    ∀ st f, f ≠ "Brightness" → (applyField ev st f).Brightness = st.Brightness := by
  intro st f hf
  apply applyField_proj (fun s => s.Brightness) ev st f <;>
    intro h <;> first | rfl | exact absurd h hf

/-- The selective-merge switch under the name "Brightness" installs the event
candidate value of Brightness. -/
lemma applyField_set_Brightness (ev st : State) :
    (applyField ev st "Brightness").Brightness = ev.Brightness := by
  unfold applyField
  rw [if_neg (show ¬(("Brightness" : String) = "On") by decide),
    if_pos (show ("Brightness" : String) = "Brightness" from rfl)]

/-- The selective-merge switch writes Hue only under the name "Hue". -/
lemma applyField_frame_Hue (ev : State) :
    ∀ st f, f ≠ "Hue" → (applyField ev st f).Hue = st.Hue := by
  intro st f hf
  apply applyField_proj (fun s => s.Hue) ev st f <;>
    intro h <;> first | rfl | exact absurd h hf

/-- The selective-merge switch under the name "Hue" installs the event
candidate value of Hue. -/
lemma applyField_set_Hue (ev st : State) :
    (applyField ev st "Hue").Hue = ev.Hue := by
  unfold applyField
  rw [if_neg (show ¬(("Hue" : String) = "On") by decide),
    if_neg (show ¬(("Hue" : String) = "Brightness") by decide),
    if_pos (show ("Hue" : String) = "Hue" from rfl)]

/-- The selective-merge switch writes Saturation only under the name "Saturation". -/
lemma applyField_frame_Saturation (ev : State) :
    ∀ st f, f ≠ "Saturation" → (applyField ev st f).Saturation = st.Saturation := by
  intro st f hf
  apply applyField_proj (fun s => s.Saturation) ev st f <;>
    intro h <;> first | rfl | exact absurd h hf

/-- The selective-merge switch under the name "Saturation" installs the event
candidate value of Saturation. -/
lemma applyField_set_Saturation (ev st : State) :
    (applyField ev st "Saturation").Saturation = ev.Saturation := by
  unfold applyField
  rw [if_neg (show ¬(("Saturation" : String) = "On") by decide),
    if_neg (show ¬(("Saturation" : String) = "Brightness") by decide),
    if_neg (show ¬(("Saturation" : String) = "Hue") by decide),
    if_pos (show ("Saturation" : String) = "Saturation" from rfl)]

/-- The selective-merge switch writes ColorTemp only under the name "ColorTemp". -/
lemma applyField_frame_ColorTemp (ev : State) :
    ∀ st f, f ≠ "ColorTemp" → (applyField ev st f).ColorTemp = st.ColorTemp := by
  intro st f hf
  apply applyField_proj (fun s => s.ColorTemp) ev st f <;>
    intro h <;> first | rfl | exact absurd h hf

/-- The selective-merge switch under the name "ColorTemp" installs the event
candidate value of ColorTemp. -/
lemma applyField_set_ColorTemp (ev st : State) :
    (applyField ev st "ColorTemp").ColorTemp = ev.ColorTemp := by
  unfold applyField
  rw [if_neg (show ¬(("ColorTemp" : String) = "On") by decide),
    if_neg (show ¬(("ColorTemp" : String) = "Brightness") by decide),
    if_neg (show ¬(("ColorTemp" : String) = "Hue") by decide),
    if_neg (show ¬(("ColorTemp" : String) = "Saturation") by decide),
    if_pos (show ("ColorTemp" : String) = "ColorTemp" from rfl)]

/-- The selective-merge switch writes Temperature only under the name "Temperature". -/
lemma applyField_frame_Temperature (ev : State) :
    ∀ st f, f ≠ "Temperature" → (applyField ev st f).Temperature = st.Temperature := by
  intro st f hf
  apply applyField_proj (fun s => s.Temperature) ev st f <;>
    intro h <;> first | rfl | exact absurd h hf

/-- The selective-merge switch under the name "Temperature" installs the event
candidate value of Temperature. -/
lemma applyField_set_Temperature (ev st : State) :
    (applyField ev st "Temperature").Temperature = ev.Temperature := by
  unfold applyField
  rw [if_neg (show ¬(("Temperature" : String) = "On") by decide),
    if_neg (show ¬(("Temperature" : String) = "Brightness") by decide),
    if_neg (show ¬(("Temperature" : String) = "Hue") by decide),
    if_neg (show ¬(("Temperature" : String) = "Saturation") by decide),
    if_neg (show ¬(("Temperature" : String) = "ColorTemp") by decide),
    if_pos (show ("Temperature" : String) = "Temperature" from rfl)]

/-- The selective-merge switch writes Humidity only under the name "Humidity". -/
lemma applyField_frame_Humidity (ev : State) :
    ∀ st f, f ≠ "Humidity" → (applyField ev st f).Humidity = st.Humidity := by
  intro st f hf
  apply applyField_proj (fun s => s.Humidity) ev st f <;>
    intro h <;> first | rfl | exact absurd h hf

/-- The selective-merge switch under the name "Humidity" installs the event
candidate value of Humidity. -/
lemma applyField_set_Humidity (ev st : State) :
    (applyField ev st "Humidity").Humidity = ev.Humidity := by
  unfold applyField
  rw [if_neg (show ¬(("Humidity" : String) = "On") by decide),
    if_neg (show ¬(("Humidity" : String) = "Brightness") by decide),
    if_neg (show ¬(("Humidity" : String) = "Hue") by decide),
    if_neg (show ¬(("Humidity" : String) = "Saturation") by decide),
    if_neg (show ¬(("Humidity" : String) = "ColorTemp") by decide),
    if_neg (show ¬(("Humidity" : String) = "Temperature") by decide),
    if_pos (show ("Humidity" : String) = "Humidity" from rfl)]

/-- The selective-merge switch writes Battery only under the name "Battery". -/
lemma applyField_frame_Battery (ev : State) :
    ∀ st f, f ≠ "Battery" → (applyField ev st f).Battery = st.Battery := by
  intro st f hf
  apply applyField_proj (fun s => s.Battery) ev st f <;>
    intro h <;> first | rfl | exact absurd h hf

/-- The selective-merge switch under the name "Battery" installs the event
candidate value of Battery. -/
lemma applyField_set_Battery (ev st : State) :
    (applyField ev st "Battery").Battery = ev.Battery := by
  unfold applyField
  rw [if_neg (show ¬(("Battery" : String) = "On") by decide),
    if_neg (show ¬(("Battery" : String) = "Brightness") by decide),
    if_neg (show ¬(("Battery" : String) = "Hue") by decide),
    if_neg (show ¬(("Battery" : String) = "Saturation") by decide),
    if_neg (show ¬(("Battery" : String) = "ColorTemp") by decide),
    if_neg (show ¬(("Battery" : String) = "Temperature") by decide),
    if_neg (show ¬(("Battery" : String) = "Humidity") by decide),
    if_pos (show ("Battery" : String) = "Battery" from rfl)]

/-- The selective-merge switch writes Occupancy only under the name "Occupancy". -/
lemma applyField_frame_Occupancy (ev : State) :
    ∀ st f, f ≠ "Occupancy" → (applyField ev st f).Occupancy = st.Occupancy := by
  intro st f hf
  apply applyField_proj (fun s => s.Occupancy) ev st f <;>
    intro h <;> first | rfl | exact absurd h hf

/-- The selective-merge switch under the name "Occupancy" installs the event
candidate value of Occupancy. -/
lemma applyField_set_Occupancy (ev st : State) :
    (applyField ev st "Occupancy").Occupancy = ev.Occupancy := by
  unfold applyField
  rw [if_neg (show ¬(("Occupancy" : String) = "On") by decide),
    if_neg (show ¬(("Occupancy" : String) = "Brightness") by decide),
    if_neg (show ¬(("Occupancy" : String) = "Hue") by decide),
    if_neg (show ¬(("Occupancy" : String) = "Saturation") by decide),
    if_neg (show ¬(("Occupancy" : String) = "ColorTemp") by decide),
    if_neg (show ¬(("Occupancy" : String) = "Temperature") by decide),
    if_neg (show ¬(("Occupancy" : String) = "Humidity") by decide),
    if_neg (show ¬(("Occupancy" : String) = "Battery") by decide),
    if_pos (show ("Occupancy" : String) = "Occupancy" from rfl)]

/-- The selective-merge switch writes Illuminance only under the name "Illuminance". -/
lemma applyField_frame_Illuminance (ev : State) :
    ∀ st f, f ≠ "Illuminance" → (applyField ev st f).Illuminance = st.Illuminance := by
  intro st f hf
  apply applyField_proj (fun s => s.Illuminance) ev st f <;>
    intro h <;> first | rfl | exact absurd h hf

/-- The selective-merge switch under the name "Illuminance" installs the event
candidate value of Illuminance. -/
lemma applyField_set_Illuminance (ev st : State) :
    (applyField ev st "Illuminance").Illuminance = ev.Illuminance := by
  unfold applyField
  rw [if_neg (show ¬(("Illuminance" : String) = "On") by decide),
    if_neg (show ¬(("Illuminance" : String) = "Brightness") by decide),
    if_neg (show ¬(("Illuminance" : String) = "Hue") by decide),
    if_neg (show ¬(("Illuminance" : String) = "Saturation") by decide),
    if_neg (show ¬(("Illuminance" : String) = "ColorTemp") by decide),
    if_neg (show ¬(("Illuminance" : String) = "Temperature") by decide),
    if_neg (show ¬(("Illuminance" : String) = "Humidity") by decide),
    if_neg (show ¬(("Illuminance" : String) = "Battery") by decide),
    if_neg (show ¬(("Illuminance" : String) = "Occupancy") by decide),
    if_pos (show ("Illuminance" : String) = "Illuminance" from rfl)]

/-- The selective-merge switch writes Pressure only under the name "Pressure". -/
lemma applyField_frame_Pressure (ev : State) :
    ∀ st f, f ≠ "Pressure" → (applyField ev st f).Pressure = st.Pressure := by
  intro st f hf
  apply applyField_proj (fun s => s.Pressure) ev st f <;>
    intro h <;> first | rfl | exact absurd h hf

/-- The selective-merge switch under the name "Pressure" installs the event
candidate value of Pressure. -/
lemma applyField_set_Pressure (ev st : State) :
    (applyField ev st "Pressure").Pressure = ev.Pressure := by
  unfold applyField
  rw [if_neg (show ¬(("Pressure" : String) = "On") by decide),
    if_neg (show ¬(("Pressure" : String) = "Brightness") by decide),
    if_neg (show ¬(("Pressure" : String) = "Hue") by decide),
    if_neg (show ¬(("Pressure" : String) = "Saturation") by decide),
    if_neg (show ¬(("Pressure" : String) = "ColorTemp") by decide),
    if_neg (show ¬(("Pressure" : String) = "Temperature") by decide),
    if_neg (show ¬(("Pressure" : String) = "Humidity") by decide),
    if_neg (show ¬(("Pressure" : String) = "Battery") by decide),
    if_neg (show ¬(("Pressure" : String) = "Occupancy") by decide),
    if_neg (show ¬(("Pressure" : String) = "Illuminance") by decide),
    if_pos (show ("Pressure" : String) = "Pressure" from rfl)]

/-- The selective-merge switch writes Contact only under the name "Contact". -/
lemma applyField_frame_Contact (ev : State) :
    ∀ st f, f ≠ "Contact" → (applyField ev st f).Contact = st.Contact := by
  intro st f hf
  apply applyField_proj (fun s => s.Contact) ev st f <;>
    intro h <;> first | rfl | exact absurd h hf

/-- The selective-merge switch under the name "Contact" installs the event
candidate value of Contact. -/
lemma applyField_set_Contact (ev st : State) :
    (applyField ev st "Contact").Contact = ev.Contact := by
  unfold applyField
  rw [if_neg (show ¬(("Contact" : String) = "On") by decide),
    if_neg (show ¬(("Contact" : String) = "Brightness") by decide),
    if_neg (show ¬(("Contact" : String) = "Hue") by decide),
    if_neg (show ¬(("Contact" : String) = "Saturation") by decide),
    if_neg (show ¬(("Contact" : String) = "ColorTemp") by decide),
    if_neg (show ¬(("Contact" : String) = "Temperature") by decide),
    if_neg (show ¬(("Contact" : String) = "Humidity") by decide),
    if_neg (show ¬(("Contact" : String) = "Battery") by decide),
    if_neg (show ¬(("Contact" : String) = "Occupancy") by decide),
    if_neg (show ¬(("Contact" : String) = "Illuminance") by decide),
    if_neg (show ¬(("Contact" : String) = "Pressure") by decide),
    if_pos (show ("Contact" : String) = "Contact" from rfl)]

/-- The selective-merge switch writes WaterLeak only under the name "WaterLeak". -/
lemma applyField_frame_WaterLeak (ev : State) :
    ∀ st f, f ≠ "WaterLeak" → (applyField ev st f).WaterLeak = st.WaterLeak := by
  intro st f hf
  apply applyField_proj (fun s => s.WaterLeak) ev st f <;>
    intro h <;> first | rfl | exact absurd h hf

/-- The selective-merge switch under the name "WaterLeak" installs the event
candidate value of WaterLeak. -/
lemma applyField_set_WaterLeak (ev st : State) :
    (applyField ev st "WaterLeak").WaterLeak = ev.WaterLeak := by
  unfold applyField
  rw [if_neg (show ¬(("WaterLeak" : String) = "On") by decide),
    if_neg (show ¬(("WaterLeak" : String) = "Brightness") by decide),
    if_neg (show ¬(("WaterLeak" : String) = "Hue") by decide),
    if_neg (show ¬(("WaterLeak" : String) = "Saturation") by decide),
    if_neg (show ¬(("WaterLeak" : String) = "ColorTemp") by decide),
    if_neg (show ¬(("WaterLeak" : String) = "Temperature") by decide),
    if_neg (show ¬(("WaterLeak" : String) = "Humidity") by decide),
    if_neg (show ¬(("WaterLeak" : String) = "Battery") by decide),
    if_neg (show ¬(("WaterLeak" : String) = "Occupancy") by decide),
    if_neg (show ¬(("WaterLeak" : String) = "Illuminance") by decide),
    if_neg (show ¬(("WaterLeak" : String) = "Pressure") by decide),
    if_neg (show ¬(("WaterLeak" : String) = "Contact") by decide),
    if_pos (show ("WaterLeak" : String) = "WaterLeak" from rfl)]

/-- The selective-merge switch writes Smoke only under the name "Smoke". -/
lemma applyField_frame_Smoke (ev : State) :
    ∀ st f, f ≠ "Smoke" → (applyField ev st f).Smoke = st.Smoke := by
  intro st f hf
  apply applyField_proj (fun s => s.Smoke) ev st f <;>
    intro h <;> first | rfl | exact absurd h hf

/-- The selective-merge switch under the name "Smoke" installs the event
candidate value of Smoke. -/
lemma applyField_set_Smoke (ev st : State) :
    (applyField ev st "Smoke").Smoke = ev.Smoke := by
  unfold applyField
  rw [if_neg (show ¬(("Smoke" : String) = "On") by decide),
    if_neg (show ¬(("Smoke" : String) = "Brightness") by decide),
    if_neg (show ¬(("Smoke" : String) = "Hue") by decide),
    if_neg (show ¬(("Smoke" : String) = "Saturation") by decide),
    if_neg (show ¬(("Smoke" : String) = "ColorTemp") by decide),
    if_neg (show ¬(("Smoke" : String) = "Temperature") by decide),
    if_neg (show ¬(("Smoke" : String) = "Humidity") by decide),
    if_neg (show ¬(("Smoke" : String) = "Battery") by decide),
    if_neg (show ¬(("Smoke" : String) = "Occupancy") by decide),
    if_neg (show ¬(("Smoke" : String) = "Illuminance") by decide),
    if_neg (show ¬(("Smoke" : String) = "Pressure") by decide),
    if_neg (show ¬(("Smoke" : String) = "Contact") by decide),
    if_neg (show ¬(("Smoke" : String) = "WaterLeak") by decide),
    if_pos (show ("Smoke" : String) = "Smoke" from rfl)]

/-- The selective-merge switch writes Tamper only under the name "Tamper". -/
lemma applyField_frame_Tamper (ev : State) :
    ∀ st f, f ≠ "Tamper" → (applyField ev st f).Tamper = st.Tamper := by
  intro st f hf
  apply applyField_proj (fun s => s.Tamper) ev st f <;>
    intro h <;> first | rfl | exact absurd h hf

/-- The selective-merge switch under the name "Tamper" installs the event
candidate value of Tamper. -/
lemma applyField_set_Tamper (ev st : State) :
    (applyField ev st "Tamper").Tamper = ev.Tamper := by
  unfold applyField
  rw [if_neg (show ¬(("Tamper" : String) = "On") by decide),
    if_neg (show ¬(("Tamper" : String) = "Brightness") by decide),
    if_neg (show ¬(("Tamper" : String) = "Hue") by decide),
    if_neg (show ¬(("Tamper" : String) = "Saturation") by decide),
    if_neg (show ¬(("Tamper" : String) = "ColorTemp") by decide),
    if_neg (show ¬(("Tamper" : String) = "Temperature") by decide),
    if_neg (show ¬(("Tamper" : String) = "Humidity") by decide),
    if_neg (show ¬(("Tamper" : String) = "Battery") by decide),
    if_neg (show ¬(("Tamper" : String) = "Occupancy") by decide),
    if_neg (show ¬(("Tamper" : String) = "Illuminance") by decide),
    if_neg (show ¬(("Tamper" : String) = "Pressure") by decide),
    if_neg (show ¬(("Tamper" : String) = "Contact") by decide),
    if_neg (show ¬(("Tamper" : String) = "WaterLeak") by decide),
    if_neg (show ¬(("Tamper" : String) = "Smoke") by decide),
    if_pos (show ("Tamper" : String) = "Tamper" from rfl)]

/-- The selective-merge switch writes FanSpeed only under the name "FanSpeed". -/
lemma applyField_frame_FanSpeed (ev : State) :
    ∀ st f, f ≠ "FanSpeed" → (applyField ev st f).FanSpeed = st.FanSpeed := by
  intro st f hf
  apply applyField_proj (fun s => s.FanSpeed) ev st f <;>
    intro h <;> first | rfl | exact absurd h hf

/-- The selective-merge switch under the name "FanSpeed" installs the event
candidate value of FanSpeed. -/
lemma applyField_set_FanSpeed (ev st : State) :
    (applyField ev st "FanSpeed").FanSpeed = ev.FanSpeed := by
  unfold applyField
  rw [if_neg (show ¬(("FanSpeed" : String) = "On") by decide),
    if_neg (show ¬(("FanSpeed" : String) = "Brightness") by decide),
    if_neg (show ¬(("FanSpeed" : String) = "Hue") by decide),
    if_neg (show ¬(("FanSpeed" : String) = "Saturation") by decide),
    if_neg (show ¬(("FanSpeed" : String) = "ColorTemp") by decide),
    if_neg (show ¬(("FanSpeed" : String) = "Temperature") by decide),
    if_neg (show ¬(("FanSpeed" : String) = "Humidity") by decide),
    if_neg (show ¬(("FanSpeed" : String) = "Battery") by decide),
    if_neg (show ¬(("FanSpeed" : String) = "Occupancy") by decide),
    if_neg (show ¬(("FanSpeed" : String) = "Illuminance") by decide),
    if_neg (show ¬(("FanSpeed" : String) = "Pressure") by decide),
    if_neg (show ¬(("FanSpeed" : String) = "Contact") by decide),
    if_neg (show ¬(("FanSpeed" : String) = "WaterLeak") by decide),
    if_neg (show ¬(("FanSpeed" : String) = "Smoke") by decide),
    if_neg (show ¬(("FanSpeed" : String) = "Tamper") by decide),
    if_pos (show ("FanSpeed" : String) = "FanSpeed" from rfl)]

/-- The selective-merge switch writes LinkQuality only under the name "LinkQuality". -/
lemma applyField_frame_LinkQuality (ev : State) :
    ∀ st f, f ≠ "LinkQuality" → (applyField ev st f).LinkQuality = st.LinkQuality := by
  intro st f hf
  apply applyField_proj (fun s => s.LinkQuality) ev st f <;>
    intro h <;> first | rfl | exact absurd h hf

/-- The selective-merge switch under the name "LinkQuality" installs the event
candidate value of LinkQuality. -/
lemma applyField_set_LinkQuality (ev st : State) :
    (applyField ev st "LinkQuality").LinkQuality = ev.LinkQuality := by
  unfold applyField
  rw [if_neg (show ¬(("LinkQuality" : String) = "On") by decide),
    if_neg (show ¬(("LinkQuality" : String) = "Brightness") by decide),
    if_neg (show ¬(("LinkQuality" : String) = "Hue") by decide),
    if_neg (show ¬(("LinkQuality" : String) = "Saturation") by decide),
    if_neg (show ¬(("LinkQuality" : String) = "ColorTemp") by decide),
    if_neg (show ¬(("LinkQuality" : String) = "Temperature") by decide),
    if_neg (show ¬(("LinkQuality" : String) = "Humidity") by decide),
    if_neg (show ¬(("LinkQuality" : String) = "Battery") by decide),
    if_neg (show ¬(("LinkQuality" : String) = "Occupancy") by decide),
    if_neg (show ¬(("LinkQuality" : String) = "Illuminance") by decide),
    if_neg (show ¬(("LinkQuality" : String) = "Pressure") by decide),
    if_neg (show ¬(("LinkQuality" : String) = "Contact") by decide),
    if_neg (show ¬(("LinkQuality" : String) = "WaterLeak") by decide),
    if_neg (show ¬(("LinkQuality" : String) = "Smoke") by decide),
    if_neg (show ¬(("LinkQuality" : String) = "Tamper") by decide),
    if_neg (show ¬(("LinkQuality" : String) = "FanSpeed") by decide),
    if_pos (show ("LinkQuality" : String) = "LinkQuality" from rfl)]

/-- The selective-merge switch writes LastSeen only under the name "LastSeen". -/
lemma applyField_frame_LastSeen (ev : State) :
    ∀ st f, f ≠ "LastSeen" → (applyField ev st f).LastSeen = st.LastSeen := by
  intro st f hf
  apply applyField_proj (fun s => s.LastSeen) ev st f <;>
    intro h <;> first | rfl | exact absurd h hf

/-- The selective-merge switch under the name "LastSeen" installs the event
candidate value of LastSeen. -/
lemma applyField_set_LastSeen (ev st : State) :
    (applyField ev st "LastSeen").LastSeen = ev.LastSeen := by
  unfold applyField
  rw [if_neg (show ¬(("LastSeen" : String) = "On") by decide),
    if_neg (show ¬(("LastSeen" : String) = "Brightness") by decide),
    if_neg (show ¬(("LastSeen" : String) = "Hue") by decide),
    if_neg (show ¬(("LastSeen" : String) = "Saturation") by decide),
    if_neg (show ¬(("LastSeen" : String) = "ColorTemp") by decide),
    if_neg (show ¬(("LastSeen" : String) = "Temperature") by decide),
    if_neg (show ¬(("LastSeen" : String) = "Humidity") by decide),
    if_neg (show ¬(("LastSeen" : String) = "Battery") by decide),
    if_neg (show ¬(("LastSeen" : String) = "Occupancy") by decide),
    if_neg (show ¬(("LastSeen" : String) = "Illuminance") by decide),
    if_neg (show ¬(("LastSeen" : String) = "Pressure") by decide),
    if_neg (show ¬(("LastSeen" : String) = "Contact") by decide),
    if_neg (show ¬(("LastSeen" : String) = "WaterLeak") by decide),
    if_neg (show ¬(("LastSeen" : String) = "Smoke") by decide),
    if_neg (show ¬(("LastSeen" : String) = "Tamper") by decide),
    if_neg (show ¬(("LastSeen" : String) = "FanSpeed") by decide),
    if_neg (show ¬(("LastSeen" : String) = "LinkQuality") by decide),
    if_pos (show ("LastSeen" : String) = "LastSeen" from rfl)]

/-- The selective-merge switch writes LastUpdated only under the name "LastUpdated". -/
lemma applyField_frame_LastUpdated (ev : State) :
    ∀ st f, f ≠ "LastUpdated" → (applyField ev st f).LastUpdated = st.LastUpdated := by
  intro st f hf
  apply applyField_proj (fun s => s.LastUpdated) ev st f <;>
    intro h <;> first | rfl | exact absurd h hf

/-- The selective-merge switch under the name "LastUpdated" installs the event
candidate value of LastUpdated. -/
lemma applyField_set_LastUpdated (ev st : State) :
    (applyField ev st "LastUpdated").LastUpdated = ev.LastUpdated := by
  unfold applyField
  rw [if_neg (show ¬(("LastUpdated" : String) = "On") by decide),
    if_neg (show ¬(("LastUpdated" : String) = "Brightness") by decide),
    if_neg (show ¬(("LastUpdated" : String) = "Hue") by decide),
    if_neg (show ¬(("LastUpdated" : String) = "Saturation") by decide),
    if_neg (show ¬(("LastUpdated" : String) = "ColorTemp") by decide),
    if_neg (show ¬(("LastUpdated" : String) = "Temperature") by decide),
    if_neg (show ¬(("LastUpdated" : String) = "Humidity") by decide),
    if_neg (show ¬(("LastUpdated" : String) = "Battery") by decide),
    if_neg (show ¬(("LastUpdated" : String) = "Occupancy") by decide),
    if_neg (show ¬(("LastUpdated" : String) = "Illuminance") by decide),
    if_neg (show ¬(("LastUpdated" : String) = "Pressure") by decide),
    if_neg (show ¬(("LastUpdated" : String) = "Contact") by decide),
    if_neg (show ¬(("LastUpdated" : String) = "WaterLeak") by decide),
    if_neg (show ¬(("LastUpdated" : String) = "Smoke") by decide),
    if_neg (show ¬(("LastUpdated" : String) = "Tamper") by decide),
    if_neg (show ¬(("LastUpdated" : String) = "FanSpeed") by decide),
    if_neg (show ¬(("LastUpdated" : String) = "LinkQuality") by decide),
    if_neg (show ¬(("LastUpdated" : String) = "LastSeen") by decide),
    if_pos (show ("LastUpdated" : String) = "LastUpdated" from rfl)]

/-- No selective-merge switch case writes the ID field. -/
lemma applyField_untouched_ID (ev : State) :
    ∀ st f, (applyField ev st f).ID = st.ID := by
  intro st f
  apply applyField_proj (fun s => s.ID) ev st f <;> intro _ <;> rfl

/-- No selective-merge switch case writes the Name field. -/
lemma applyField_untouched_Name (ev : State) :
    ∀ st f, (applyField ev st f).Name = st.Name := by
  intro st f
  apply applyField_proj (fun s => s.Name) ev st f <;> intro _ <;> rfl

/-- No selective-merge switch case writes the FanDirection field. -/
lemma applyField_untouched_FanDirection (ev : State) :
    ∀ st f, (applyField ev st f).FanDirection = st.FanDirection := by
  intro st f
  apply applyField_proj (fun s => s.FanDirection) ev st f <;> intro _ <;> rfl

/-- No selective-merge switch case writes the FanSwing field. -/
lemma applyField_untouched_FanSwing (ev : State) :
    ∀ st f, (applyField ev st f).FanSwing = st.FanSwing := by
  intro st f
  apply applyField_proj (fun s => s.FanSwing) ev st f <;> intro _ <;> rfl

/-- A fold of selective field writes leaves a projection unchanged when
the projected field name is never in the list. -/
lemma foldl_applyField_frame {B : Type} (proj : State → B) (ev : State)
    (name : String)
    (hproj : ∀ st f, f ≠ name → proj (applyField ev st f) = proj st) :
    ∀ (fields : List String) (st : State), name ∉ fields →
      proj (fields.foldl (applyField ev) st) = proj st := by
  intro fields
  induction fields with
  | nil => intro st _; rfl
  | cons f rest ih =>
    intro st h
    rw [List.mem_cons, not_or] at h
    rw [List.foldl_cons, ih _ h.2, hproj st f (Ne.symm h.1)]

/-- A fold of selective field writes installs the event value for a
projected field whose name occurs in the list. -/
lemma foldl_applyField_written {B : Type} (proj : State → B) (ev : State)
    (name : String)
    (hset : ∀ st, proj (applyField ev st name) = proj ev)
    (hproj : ∀ st f, f ≠ name → proj (applyField ev st f) = proj st) :
    ∀ (fields : List String) (st : State), name ∈ fields →
      proj (fields.foldl (applyField ev) st) = proj ev := by
  intro fields
  induction fields with
  | nil => intro st h; cases h
  | cons f rest ih =>
    intro st h
    rw [List.foldl_cons]
    by_cases hr : name ∈ rest
    · exact ih _ hr
    · have hf : name = f := by
        rcases List.mem_cons.mp h with h1 | h1
        · exact h1
        · exact absurd h1 hr
      subst hf
      rw [foldl_applyField_frame proj ev name hproj rest _ hr, hset st]

/-- A fold of selective field writes never touches a field no switch case
writes. -/
lemma foldl_applyField_untouched {B : Type} (proj : State → B) (ev : State)
    (hproj : ∀ st f, proj (applyField ev st f) = proj st) :
    ∀ (fields : List String) (st : State),
      proj (fields.foldl (applyField ev) st) = proj st := by
  intro fields
  induction fields with
  | nil => intro st; rfl
  | cons f rest ih =>
    intro st
    rw [List.foldl_cons, ih, hproj]

/-- The worked selective-merge example of the spec: a stored state with
Temperature 20. -/
def exampleState : State :=
  { ID := "c1", Name := "Climate", Temperature := some 20 }

/-- The worked selective-merge example of the spec: an incoming event
naming only Humidity, whose candidate state carries Humidity 55 and a
stale Temperature 99. -/
def exampleEvent : StateChangedEvent :=
  { DeviceID := "c1"
    State := { ID := "c1", Name := "Climate",
               Temperature := some 99, Humidity := some 55 }
    UpdatedFields := ["Humidity"] }

end Z2M.devices

/-- Claim C2: the selective merge overwrites only the fields named in the
event field list; every field not named (and every field no switch case
writes) keeps its prior value even when the candidate state differs; in
particular the spec example merging only Humidity keeps Temperature 20
and installs Humidity 55. -/
theorem C2_selective_merge :
    (∀ (st : Z2M.devices.State) (e : Z2M.devices.StateChangedEvent),
      "On" ∉ e.UpdatedFields →
      (Z2M.devices.mergeState st e).On = st.On) ∧
    (∀ (st : Z2M.devices.State) (e : Z2M.devices.StateChangedEvent),
      "Brightness" ∉ e.UpdatedFields →
      (Z2M.devices.mergeState st e).Brightness = st.Brightness) ∧
    (∀ (st : Z2M.devices.State) (e : Z2M.devices.StateChangedEvent),
      "Hue" ∉ e.UpdatedFields →
      (Z2M.devices.mergeState st e).Hue = st.Hue) ∧
    (∀ (st : Z2M.devices.State) (e : Z2M.devices.StateChangedEvent),
      "Saturation" ∉ e.UpdatedFields →
      (Z2M.devices.mergeState st e).Saturation = st.Saturation) ∧
    (∀ (st : Z2M.devices.State) (e : Z2M.devices.StateChangedEvent),
      "ColorTemp" ∉ e.UpdatedFields →
      (Z2M.devices.mergeState st e).ColorTemp = st.ColorTemp) ∧
    (∀ (st : Z2M.devices.State) (e : Z2M.devices.StateChangedEvent),
      "Temperature" ∉ e.UpdatedFields →
      (Z2M.devices.mergeState st e).Temperature = st.Temperature) ∧
    (∀ (st : Z2M.devices.State) (e : Z2M.devices.StateChangedEvent),
      "Humidity" ∉ e.UpdatedFields →
      (Z2M.devices.mergeState st e).Humidity = st.Humidity) ∧
    (∀ (st : Z2M.devices.State) (e : Z2M.devices.StateChangedEvent),
      "Battery" ∉ e.UpdatedFields →
      (Z2M.devices.mergeState st e).Battery = st.Battery) ∧
    (∀ (st : Z2M.devices.State) (e : Z2M.devices.StateChangedEvent),
      "Occupancy" ∉ e.UpdatedFields →
      (Z2M.devices.mergeState st e).Occupancy = st.Occupancy) ∧
    (∀ (st : Z2M.devices.State) (e : Z2M.devices.StateChangedEvent),
      "Illuminance" ∉ e.UpdatedFields →
      (Z2M.devices.mergeState st e).Illuminance = st.Illuminance) ∧
    (∀ (st : Z2M.devices.State) (e : Z2M.devices.StateChangedEvent),
      "Pressure" ∉ e.UpdatedFields →
      (Z2M.devices.mergeState st e).Pressure = st.Pressure) ∧
    (∀ (st : Z2M.devices.State) (e : Z2M.devices.StateChangedEvent),
      "Contact" ∉ e.UpdatedFields →
      (Z2M.devices.mergeState st e).Contact = st.Contact) ∧
    (∀ (st : Z2M.devices.State) (e : Z2M.devices.StateChangedEvent),
      "WaterLeak" ∉ e.UpdatedFields →
      (Z2M.devices.mergeState st e).WaterLeak = st.WaterLeak) ∧
    (∀ (st : Z2M.devices.State) (e : Z2M.devices.StateChangedEvent),
      "Smoke" ∉ e.UpdatedFields →
      (Z2M.devices.mergeState st e).Smoke = st.Smoke) ∧
    (∀ (st : Z2M.devices.State) (e : Z2M.devices.StateChangedEvent),
      "Tamper" ∉ e.UpdatedFields →
      (Z2M.devices.mergeState st e).Tamper = st.Tamper) ∧
    (∀ (st : Z2M.devices.State) (e : Z2M.devices.StateChangedEvent),
      "FanSpeed" ∉ e.UpdatedFields →
      (Z2M.devices.mergeState st e).FanSpeed = st.FanSpeed) ∧
    (∀ (st : Z2M.devices.State) (e : Z2M.devices.StateChangedEvent),
      "LinkQuality" ∉ e.UpdatedFields →
      (Z2M.devices.mergeState st e).LinkQuality = st.LinkQuality) ∧
    (∀ (st : Z2M.devices.State) (e : Z2M.devices.StateChangedEvent),
      "LastSeen" ∉ e.UpdatedFields →
      (Z2M.devices.mergeState st e).LastSeen = st.LastSeen) ∧
    (∀ (st : Z2M.devices.State) (e : Z2M.devices.StateChangedEvent),
      "LastUpdated" ∉ e.UpdatedFields →
      (Z2M.devices.mergeState st e).LastUpdated = st.LastUpdated) ∧
    (∀ (st : Z2M.devices.State) (e : Z2M.devices.StateChangedEvent),
      (Z2M.devices.mergeState st e).ID = st.ID) ∧
    (∀ (st : Z2M.devices.State) (e : Z2M.devices.StateChangedEvent),
      (Z2M.devices.mergeState st e).Name = st.Name) ∧
    (∀ (st : Z2M.devices.State) (e : Z2M.devices.StateChangedEvent),
      (Z2M.devices.mergeState st e).FanDirection = st.FanDirection) ∧
    (∀ (st : Z2M.devices.State) (e : Z2M.devices.StateChangedEvent),
      (Z2M.devices.mergeState st e).FanSwing = st.FanSwing) ∧
    (∀ (dm : Z2M.devices.Manager) (now : Nat)
        (e : Z2M.devices.StateChangedEvent) (st : Z2M.devices.State),
      Z2M.events.mapLookup dm.states e.DeviceID = some st →
      Z2M.events.mapLookup ((Z2M.devices.processStateEvent dm now e).1.states)
          e.DeviceID = some (Z2M.devices.mergeState st e)) ∧
    ((Z2M.devices.mergeState Z2M.devices.exampleState
        Z2M.devices.exampleEvent).Temperature = some 20 ∧
      (Z2M.devices.mergeState Z2M.devices.exampleState
        Z2M.devices.exampleEvent).Humidity = some 55) :=
  ⟨fun st e h => Z2M.devices.foldl_applyField_frame (fun s => s.On)
     e.State "On" (Z2M.devices.applyField_frame_On e.State) e.UpdatedFields st h,
   fun st e h => Z2M.devices.foldl_applyField_frame (fun s => s.Brightness)
     e.State "Brightness" (Z2M.devices.applyField_frame_Brightness e.State) e.UpdatedFields st h,
   fun st e h => Z2M.devices.foldl_applyField_frame (fun s => s.Hue)
     e.State "Hue" (Z2M.devices.applyField_frame_Hue e.State) e.UpdatedFields st h,
   fun st e h => Z2M.devices.foldl_applyField_frame (fun s => s.Saturation)
     e.State "Saturation" (Z2M.devices.applyField_frame_Saturation e.State) e.UpdatedFields st h,
   fun st e h => Z2M.devices.foldl_applyField_frame (fun s => s.ColorTemp)
     e.State "ColorTemp" (Z2M.devices.applyField_frame_ColorTemp e.State) e.UpdatedFields st h,
   fun st e h => Z2M.devices.foldl_applyField_frame (fun s => s.Temperature)
     e.State "Temperature" (Z2M.devices.applyField_frame_Temperature e.State) e.UpdatedFields st h,
   fun st e h => Z2M.devices.foldl_applyField_frame (fun s => s.Humidity)
     e.State "Humidity" (Z2M.devices.applyField_frame_Humidity e.State) e.UpdatedFields st h,
   fun st e h => Z2M.devices.foldl_applyField_frame (fun s => s.Battery)
     e.State "Battery" (Z2M.devices.applyField_frame_Battery e.State) e.UpdatedFields st h,
   fun st e h => Z2M.devices.foldl_applyField_frame (fun s => s.Occupancy)
     e.State "Occupancy" (Z2M.devices.applyField_frame_Occupancy e.State) e.UpdatedFields st h,
   fun st e h => Z2M.devices.foldl_applyField_frame (fun s => s.Illuminance)
     e.State "Illuminance" (Z2M.devices.applyField_frame_Illuminance e.State) e.UpdatedFields st h,
   fun st e h => Z2M.devices.foldl_applyField_frame (fun s => s.Pressure)
     e.State "Pressure" (Z2M.devices.applyField_frame_Pressure e.State) e.UpdatedFields st h,
   fun st e h => Z2M.devices.foldl_applyField_frame (fun s => s.Contact)
     e.State "Contact" (Z2M.devices.applyField_frame_Contact e.State) e.UpdatedFields st h,
   fun st e h => Z2M.devices.foldl_applyField_frame (fun s => s.WaterLeak)
     e.State "WaterLeak" (Z2M.devices.applyField_frame_WaterLeak e.State) e.UpdatedFields st h,
   fun st e h => Z2M.devices.foldl_applyField_frame (fun s => s.Smoke)
     e.State "Smoke" (Z2M.devices.applyField_frame_Smoke e.State) e.UpdatedFields st h,
   fun st e h => Z2M.devices.foldl_applyField_frame (fun s => s.Tamper)
     e.State "Tamper" (Z2M.devices.applyField_frame_Tamper e.State) e.UpdatedFields st h,
   fun st e h => Z2M.devices.foldl_applyField_frame (fun s => s.FanSpeed)
     e.State "FanSpeed" (Z2M.devices.applyField_frame_FanSpeed e.State) e.UpdatedFields st h,
   fun st e h => Z2M.devices.foldl_applyField_frame (fun s => s.LinkQuality)
     e.State "LinkQuality" (Z2M.devices.applyField_frame_LinkQuality e.State) e.UpdatedFields st h,
   fun st e h => Z2M.devices.foldl_applyField_frame (fun s => s.LastSeen)
     e.State "LastSeen" (Z2M.devices.applyField_frame_LastSeen e.State) e.UpdatedFields st h,
   fun st e h => Z2M.devices.foldl_applyField_frame (fun s => s.LastUpdated)
     e.State "LastUpdated" (Z2M.devices.applyField_frame_LastUpdated e.State) e.UpdatedFields st h,
   fun st e => Z2M.devices.foldl_applyField_untouched (fun s => s.ID)
     e.State (Z2M.devices.applyField_untouched_ID e.State) e.UpdatedFields st,
   fun st e => Z2M.devices.foldl_applyField_untouched (fun s => s.Name)
     e.State (Z2M.devices.applyField_untouched_Name e.State) e.UpdatedFields st,
   fun st e => Z2M.devices.foldl_applyField_untouched (fun s => s.FanDirection)
     e.State (Z2M.devices.applyField_untouched_FanDirection e.State) e.UpdatedFields st,
   fun st e => Z2M.devices.foldl_applyField_untouched (fun s => s.FanSwing)
     e.State (Z2M.devices.applyField_untouched_FanSwing e.State) e.UpdatedFields st,
   fun dm now e st h => by
     unfold Z2M.devices.processStateEvent
     rw [h]
     exact Z2M.devices.mapLookup_mapInsert_self dm.states e.DeviceID
       (Z2M.devices.mergeState st e),
   ⟨by decide, by decide⟩⟩

/-- Witness for C2 on the spec example: Temperature is not named, so it
is retained. -/
theorem C2_selective_merge_witness :
    (Z2M.devices.mergeState Z2M.devices.exampleState
      Z2M.devices.exampleEvent).Temperature =
      Z2M.devices.exampleState.Temperature :=
  C2_selective_merge.2.2.2.2.2.1 Z2M.devices.exampleState
    Z2M.devices.exampleEvent (by decide)

/-! ## Config validation lemmas (C8) -/

namespace Z2M.devices

/-- The validation loop fails whenever some device in the remaining list
carries an id already seen, or the remaining ids themselves repeat. -/
lemma validateDevices_error_of_dup :
    ∀ (l : List Device) (i : Nat) (seen : List String),
      ((∃ d ∈ l, d.ID ∈ seen) ∨ ¬ (l.map Device.ID).Nodup) →
      ∃ msg, validateDevices i seen l = .error msg := by
  intro l
  induction l with
  | nil =>
    intro i seen h
    rcases h with ⟨d, hd, _⟩ | h
    · cases hd
    · simp at h
  | cons d rest ih =>
    intro i seen h
    by_cases hID : d.ID = ""
    · exact ⟨_, by unfold validateDevices; rw [if_pos hID]⟩
    · by_cases hName : d.Name = ""
      · exact ⟨_, by unfold validateDevices; rw [if_neg hID, if_pos hName]⟩
      · by_cases hTopic : d.Topic = ""
        · exact ⟨_, by
            unfold validateDevices
            rw [if_neg hID, if_neg hName, if_pos hTopic]⟩
        · by_cases hTyp : d.Typ = ""
          · exact ⟨_, by
              unfold validateDevices
              rw [if_neg hID, if_neg hName, if_neg hTopic, if_pos hTyp]⟩
          · by_cases hValid : isValidDeviceType d.Typ
            · by_cases hdup : d.ID ∈ seen
              · exact ⟨_, by
                  unfold validateDevices
                  rw [if_neg hID, if_neg hName, if_neg hTopic, if_neg hTyp,
                    if_neg (by simp [hValid]), if_pos hdup]⟩
              · have hrest :
                    (∃ d2 ∈ rest, d2.ID ∈ d.ID :: seen) ∨
                      ¬ (rest.map Device.ID).Nodup := by
                  rcases h with ⟨d2, hd2, hd2seen⟩ | h
                  · rcases List.mem_cons.mp hd2 with rfl | hd2r
                    · exact absurd hd2seen hdup
                    · exact Or.inl ⟨d2, hd2r, List.mem_cons_of_mem _ hd2seen⟩
                  · rw [List.map_cons, List.nodup_cons] at h
                    push_neg at h
                    by_cases hmem : d.ID ∈ rest.map Device.ID
                    · rcases List.mem_map.mp hmem with ⟨d2, hd2r, hd2id⟩
                      exact Or.inl ⟨d2, hd2r, by rw [hd2id]; exact List.mem_cons_self _ _⟩
                    · exact Or.inr (h hmem)
                obtain ⟨msg, hmsg⟩ := ih (i + 1) (d.ID :: seen) hrest
                refine ⟨msg, ?_⟩
                unfold validateDevices
                rw [if_neg hID, if_neg hName, if_neg hTopic, if_neg hTyp,
                  if_neg (by simp [hValid]), if_neg hdup, hmsg]
            · exact ⟨_, by
                unfold validateDevices
                rw [if_neg hID, if_neg hName, if_neg hTopic, if_neg hTyp,
                  if_pos (by simp [hValid])]⟩

end Z2M.devices

/-- Claim C8: a configuration document in which two distinct positions
carry the same device identifier is rejected at load time with an error
and no registry. -/
theorem C8_duplicate_ids_rejected (devs : List Z2M.devices.Device)
    (i j : Nat) (hi : i < devs.length) (hj : j < devs.length) (hne : i ≠ j)
    (hid : (devs.get ⟨i, hi⟩).ID = (devs.get ⟨j, hj⟩).ID) :
    ∃ msg, Z2M.devices.LoadConfig devs = .error msg := by
  have hnotnodup : ¬ (devs.map Z2M.devices.Device.ID).Nodup := by
    intro hnd
    have hinj := List.nodup_iff_injective_get.mp hnd
    have hgi : (devs.map Z2M.devices.Device.ID).get
        ⟨i, by simpa using hi⟩ = (devs.get ⟨i, hi⟩).ID := by
      simp
    have hgj : (devs.map Z2M.devices.Device.ID).get
        ⟨j, by simpa using hj⟩ = (devs.get ⟨j, hj⟩).ID := by
      simp
    have : (⟨i, by simpa using hi⟩ : Fin (devs.map Z2M.devices.Device.ID).length)
        = ⟨j, by simpa using hj⟩ := hinj (by rw [hgi, hgj, hid])
    exact hne (by simpa using congrArg Fin.val this)
  obtain ⟨msg, hmsg⟩ :=
    Z2M.devices.validateDevices_error_of_dup devs 0 [] (Or.inr hnotnodup)
  refine ⟨msg, ?_⟩
  unfold Z2M.devices.LoadConfig
  rw [if_neg (by intro hlen; rw [List.length_eq_zero] at hlen; subst hlen; cases hi),
    hmsg]
  rfl

/-- Witness for C8: two devices sharing identifier "x". -/
theorem C8_duplicate_ids_rejected_witness :
    ∃ msg, Z2M.devices.LoadConfig
      [{ ID := "x", Name := "A", Topic := "a", Typ := "switch" },
       { ID := "x", Name := "B", Topic := "b", Typ := "switch" }] = .error msg :=
  C8_duplicate_ids_rejected _ 0 1 (by decide) (by decide) (by decide) (by decide)

/-! ## Deduplication lemmas (C1) -/

namespace Z2M.events

/-- Pointer-boolean comparison is reflexive. -/
lemma ptrBoolEqual_refl (a : Option Bool) : ptrBoolEqual a a = true := by
  cases a <;> simp [ptrBoolEqual]

/-- Pointer-integer comparison is reflexive. -/
lemma ptrIntEqual_refl (a : Option Int) : ptrIntEqual a a = true := by
  cases a <;> simp [ptrIntEqual]

/-- Pointer-float comparison is reflexive: the absolute difference of a
value with itself is zero, below the 0.001 epsilon. -/
lemma ptrFloatEqual_refl (a : Option Rat) : ptrFloatEqual a a = true := by
  cases a <;> simp [ptrFloatEqual]

/-- Events that agree on every field other than Timestamp and Source are
recognized as equal by the dedup comparison. -/
lemma Equals_of_exclEnvelope {a b : StateUpdateEvent}
    (h : Z2MSpec.valueEqualExclEnvelope a b) : a.Equals b = true := by
  obtain ⟨h1, h2, h3, h4, h5, h6, h7, h8, h9, h10, h11, h12, h13, h14, h15,
    h16, h17, h18, h19, h20, h21, h22, h23⟩ := h
  simp [StateUpdateEvent.Equals, h1, h2, h3, h4, h5, h6, h7, h8, h9, h10,
    h11, h12, h13, h14, h15, h16, h17, h18, h19, h20, h21, h22, h23,
    ptrBoolEqual_refl, ptrIntEqual_refl, ptrFloatEqual_refl]

end Z2M.events

/-- Claim C1 (amended): the dedup comparison excludes only the envelope
Timestamp and Source fields — LastSeen and LastUpdated are compared. A
new event equal to the retained one in every field except the envelope is
silently dropped; and publishing two events that differ at most in the
envelope (in particular, only in the Timestamp field) for a device with
no retained entry yields exactly one delivered event. -/
theorem C1_dedup_excl_envelope :
    (∀ (b : Z2M.events.Bus) (e last : Z2M.events.StateUpdateEvent),
      Z2M.events.mapLookup b.lastStates e.DeviceID = some last →
      Z2MSpec.valueEqualExclEnvelope e last →
      (b.PublishStateUpdate e).2 = []) ∧
    (∀ (b : Z2M.events.Bus) (e e2 : Z2M.events.StateUpdateEvent),
      Z2M.events.mapLookup b.lastStates e.DeviceID = none →
      Z2MSpec.valueEqualExclEnvelope e2 e →
      (b.PublishStateUpdate e).2 = [e] ∧
      ((b.PublishStateUpdate e).1.PublishStateUpdate e2).2 = []) := by
  constructor
  · intro b e last hlook heq
    unfold Z2M.events.Bus.PublishStateUpdate
    rw [hlook]
    simp [Z2M.events.Equals_of_exclEnvelope heq]
  · intro b e e2 hlook heq
    have hdev : e2.DeviceID = e.DeviceID := heq.1
    have h1 : (b.PublishStateUpdate e).1 =
        ⟨Z2M.events.mapInsert b.lastStates e.DeviceID e⟩ := by
      unfold Z2M.events.Bus.PublishStateUpdate
      rw [hlook]
    constructor
    · unfold Z2M.events.Bus.PublishStateUpdate
      rw [hlook]
    · rw [h1]
      unfold Z2M.events.Bus.PublishStateUpdate
      rw [hdev, Z2M.devices.mapLookup_mapInsert_self]
      simp [Z2M.events.Equals_of_exclEnvelope heq]

/-- Witness for C1 (amended): two events identical except for the
envelope Timestamp; the second is dropped. -/
theorem C1_dedup_excl_envelope_witness :
    (Z2M.events.Bus.empty.PublishStateUpdate
        { Timestamp := 1, Source := "eventbus", DeviceID := "d1",
          Name := "Door", Temperature := none, Humidity := none,
          Battery := none, Occupancy := none, Illuminance := none,
          Pressure := none, Contact := some true, WaterLeak := none,
          Smoke := none, Tamper := none, On := none, Brightness := none,
          Hue := none, Saturation := none, ColorTemp := none,
          FanSpeed := none, LinkQuality := 10, LastSeen := 100,
          LastUpdated := 100, ConnectionState := "connected",
          ConnectionNote := "ok" }).2 =
      [{ Timestamp := 1, Source := "eventbus", DeviceID := "d1",
          Name := "Door", Temperature := none, Humidity := none,
          Battery := none, Occupancy := none, Illuminance := none,
          Pressure := none, Contact := some true, WaterLeak := none,
          Smoke := none, Tamper := none, On := none, Brightness := none,
          Hue := none, Saturation := none, ColorTemp := none,
          FanSpeed := none, LinkQuality := 10, LastSeen := 100,
          LastUpdated := 100, ConnectionState := "connected",
          ConnectionNote := "ok" }] ∧
    ((Z2M.events.Bus.empty.PublishStateUpdate
        { Timestamp := 1, Source := "eventbus", DeviceID := "d1",
          Name := "Door", Temperature := none, Humidity := none,
          Battery := none, Occupancy := none, Illuminance := none,
          Pressure := none, Contact := some true, WaterLeak := none,
          Smoke := none, Tamper := none, On := none, Brightness := none,
          Hue := none, Saturation := none, ColorTemp := none,
          FanSpeed := none, LinkQuality := 10, LastSeen := 100,
          LastUpdated := 100, ConnectionState := "connected",
          ConnectionNote := "ok" }).1.PublishStateUpdate
        { Timestamp := 2, Source := "eventbus", DeviceID := "d1",
          Name := "Door", Temperature := none, Humidity := none,
          Battery := none, Occupancy := none, Illuminance := none,
          Pressure := none, Contact := some true, WaterLeak := none,
          Smoke := none, Tamper := none, On := none, Brightness := none,
          Hue := none, Saturation := none, ColorTemp := none,
          FanSpeed := none, LinkQuality := 10, LastSeen := 100,
          LastUpdated := 100, ConnectionState := "connected",
          ConnectionNote := "ok" }).2 = [] :=
  C1_dedup_excl_envelope.2 Z2M.events.Bus.empty _ _ (by decide) (by decide)

/-- Counterexample for C1 as stated: two events that are field-for-field
value-equal with all timestamps excluded (they differ only in Timestamp
and LastUpdated) are NOT deduplicated — the second is delivered, so two
events reach subscribers rather than exactly one. -/
theorem C1_counterexample :
    Z2MSpec.valueEqualExclTimestamps
      { Timestamp := 2, Source := "eventbus", DeviceID := "d1",
        Name := "Door", Temperature := none, Humidity := none,
        Battery := none, Occupancy := none, Illuminance := none,
        Pressure := none, Contact := some true, WaterLeak := none,
        Smoke := none, Tamper := none, On := none, Brightness := none,
        Hue := none, Saturation := none, ColorTemp := none,
        FanSpeed := none, LinkQuality := 10, LastSeen := 100,
        LastUpdated := 200, ConnectionState := "connected",
        ConnectionNote := "ok" }
      { Timestamp := 1, Source := "eventbus", DeviceID := "d1",
        Name := "Door", Temperature := none, Humidity := none,
        Battery := none, Occupancy := none, Illuminance := none,
        Pressure := none, Contact := some true, WaterLeak := none,
        Smoke := none, Tamper := none, On := none, Brightness := none,
        Hue := none, Saturation := none, ColorTemp := none,
        FanSpeed := none, LinkQuality := 10, LastSeen := 100,
        LastUpdated := 100, ConnectionState := "connected",
        ConnectionNote := "ok" } ∧
    ((Z2M.events.Bus.empty.PublishStateUpdate
        { Timestamp := 1, Source := "eventbus", DeviceID := "d1",
          Name := "Door", Temperature := none, Humidity := none,
          Battery := none, Occupancy := none, Illuminance := none,
          Pressure := none, Contact := some true, WaterLeak := none,
          Smoke := none, Tamper := none, On := none, Brightness := none,
          Hue := none, Saturation := none, ColorTemp := none,
          FanSpeed := none, LinkQuality := 10, LastSeen := 100,
          LastUpdated := 100, ConnectionState := "connected",
          ConnectionNote := "ok" }).2.length +
      ((Z2M.events.Bus.empty.PublishStateUpdate
        { Timestamp := 1, Source := "eventbus", DeviceID := "d1",
          Name := "Door", Temperature := none, Humidity := none,
          Battery := none, Occupancy := none, Illuminance := none,
          Pressure := none, Contact := some true, WaterLeak := none,
          Smoke := none, Tamper := none, On := none, Brightness := none,
          Hue := none, Saturation := none, ColorTemp := none,
          FanSpeed := none, LinkQuality := 10, LastSeen := 100,
          LastUpdated := 100, ConnectionState := "connected",
          ConnectionNote := "ok" }).1.PublishStateUpdate
        { Timestamp := 2, Source := "eventbus", DeviceID := "d1",
          Name := "Door", Temperature := none, Humidity := none,
          Battery := none, Occupancy := none, Illuminance := none,
          Pressure := none, Contact := some true, WaterLeak := none,
          Smoke := none, Tamper := none, On := none, Brightness := none,
          Hue := none, Saturation := none, ColorTemp := none,
          FanSpeed := none, LinkQuality := 10, LastSeen := 100,
          LastUpdated := 200, ConnectionState := "connected",
          ConnectionNote := "ok" }).2.length) = 2 := by
  constructor
  · decide
  · decide

/-! ## Ingestion timestamp lemmas (C4) -/

namespace Z2M.mqtt

/-- A parse step whose field write leaves LastUpdated alone leaves the
accumulated LastUpdated alone. -/
lemma parseStep_fst_LastUpdated {β : Type} (g : Option β)
    (u : β → Z2M.devices.State → Z2M.devices.State) (n : String)
    (x : Z2M.devices.State × List String)
    (h : ∀ v st, (u v st).LastUpdated = st.LastUpdated) :
    (parseStep g u n x).1.LastUpdated = x.1.LastUpdated := by
  cases g <;> simp [parseStep, h]

/-- A parse step whose field write leaves LastSeen alone leaves the
accumulated LastSeen alone. -/
lemma parseStep_fst_LastSeen {β : Type} (g : Option β)
    (u : β → Z2M.devices.State → Z2M.devices.State) (n : String)
    (x : Z2M.devices.State × List String)
    (h : ∀ v st, (u v st).LastSeen = st.LastSeen) :
    (parseStep g u n x).1.LastSeen = x.1.LastSeen := by
  cases g <;> simp [parseStep, h]

/-- The color block never writes LastUpdated. -/
lemma colorStep_fst_LastUpdated (msg : List (String × JsonVal))
    (x : Z2M.devices.State × List String) :
    (colorStep msg x).1.LastUpdated = x.1.LastUpdated := by
  unfold colorStep
  cases getObj msg "color" <;>
    simp [parseStep_fst_LastUpdated]

/-- The color block never writes LastSeen. -/
lemma colorStep_fst_LastSeen (msg : List (String × JsonVal))
    (x : Z2M.devices.State × List String) :
    (colorStep msg x).1.LastSeen = x.1.LastSeen := by
  unfold colorStep
  cases getObj msg "color" <;>
    simp [parseStep_fst_LastSeen]

/-- The ingestion parser stamps both connectivity timestamps with now and
always records their field names. -/
lemma parseZ2MMessage_timestamps (dev : Z2M.devices.Device) (now : Nat)
    (msg : List (String × JsonVal)) :
    (parseZ2MMessage dev now msg).1.LastUpdated = now ∧
    (parseZ2MMessage dev now msg).1.LastSeen = now ∧
    "LastUpdated" ∈ (parseZ2MMessage dev now msg).2 ∧
    "LastSeen" ∈ (parseZ2MMessage dev now msg).2 := by
  refine ⟨?_, ?_, ?_, ?_⟩
  · unfold parseZ2MMessage
    simp [parseStep_fst_LastUpdated, colorStep_fst_LastUpdated]
  · unfold parseZ2MMessage
    simp [parseStep_fst_LastSeen, colorStep_fst_LastSeen]
  · unfold parseZ2MMessage
    simp
  · unfold parseZ2MMessage
    simp

end Z2M.mqtt

/-- Counterexample for C4 as stated: a merge whose field list names only
Humidity leaves the stored last-updated timestamp at its prior value 100
even though the current time is 200 — the merge does not always set
last-updated to now. -/
theorem C4_counterexample :
    (Z2M.events.mapLookup
        (Z2M.devices.processStateEvent
          ⟨[("d1", { ID := "d1", Name := "Door", Topic := "door",
                     Typ := "contact_sensor" })],
           [("d1", { ID := "d1", Name := "Door", LastUpdated := 100 })]⟩
          200
          ⟨"d1",
           { ID := "d1", Name := "Door", Humidity := some 55,
             LastSeen := 200, LastUpdated := 200 },
           ["Humidity"]⟩).1.states "d1").map
      Z2M.devices.State.LastUpdated = some 100 ∧
    (100 : Nat) ≠ 200 := by
  constructor
  · decide
  · decide

/-- Claim C4 (amended): the merge writes last-updated only when the event
field list names it, and then to the event candidate value; the MQTT
ingestion hook always names LastSeen and LastUpdated and stamps both with
now, so hook-produced events always refresh them; after a merge for a
registered device the manager submits a StateUpdate built from the
post-merge state with source tag "eventbus". -/
theorem C4_last_updated :
    (∀ (st : Z2M.devices.State) (e : Z2M.devices.StateChangedEvent),
      "LastUpdated" ∈ e.UpdatedFields →
      (Z2M.devices.mergeState st e).LastUpdated = e.State.LastUpdated) ∧
    (∀ (st : Z2M.devices.State) (e : Z2M.devices.StateChangedEvent),
      "LastUpdated" ∉ e.UpdatedFields →
      (Z2M.devices.mergeState st e).LastUpdated = st.LastUpdated) ∧
    (∀ (dev : Z2M.devices.Device) (now : Nat)
        (msg : List (String × Z2M.mqtt.JsonVal)),
      (Z2M.mqtt.parseZ2MMessage dev now msg).1.LastUpdated = now ∧
      (Z2M.mqtt.parseZ2MMessage dev now msg).1.LastSeen = now ∧
      "LastUpdated" ∈ (Z2M.mqtt.parseZ2MMessage dev now msg).2 ∧
      "LastSeen" ∈ (Z2M.mqtt.parseZ2MMessage dev now msg).2) ∧
    (∀ (dm : Z2M.devices.Manager) (now : Nat)
        (e : Z2M.devices.StateChangedEvent) (st : Z2M.devices.State),
      Z2M.events.mapLookup dm.states e.DeviceID = some st →
      (Z2M.devices.processStateEvent dm now e).2 =
        some (Z2M.devices.buildStateUpdate
          ⟨dm.devices,
           Z2M.events.mapInsert dm.states e.DeviceID
             (Z2M.devices.mergeState st e)⟩
          now "eventbus" e.DeviceID (Z2M.devices.mergeState st e)) ∧
      (Z2M.devices.buildStateUpdate
          ⟨dm.devices,
           Z2M.events.mapInsert dm.states e.DeviceID
             (Z2M.devices.mergeState st e)⟩
          now "eventbus" e.DeviceID
          (Z2M.devices.mergeState st e)).Source = "eventbus") :=
  ⟨fun st e h =>
      Z2M.devices.foldl_applyField_written (fun s => s.LastUpdated) e.State
        "LastUpdated"
        (fun st2 => Z2M.devices.applyField_set_LastUpdated e.State st2)
        (Z2M.devices.applyField_frame_LastUpdated e.State)
        e.UpdatedFields st h,
   fun st e h =>
      Z2M.devices.foldl_applyField_frame (fun s => s.LastUpdated) e.State
        "LastUpdated"
        (Z2M.devices.applyField_frame_LastUpdated e.State)
        e.UpdatedFields st h,
   fun dev now msg => Z2M.mqtt.parseZ2MMessage_timestamps dev now msg,
   fun dm now e st h => by
      unfold Z2M.devices.processStateEvent
      rw [h]
      exact ⟨rfl, rfl⟩⟩

/-- Witness for C4 (amended): an event naming LastUpdated installs the
candidate timestamp 300. -/
theorem C4_last_updated_witness :
    (Z2M.devices.mergeState
      { ID := "d1", Name := "Door", LastUpdated := 100 }
      ⟨"d1", { ID := "d1", Name := "Door", LastUpdated := 300 },
       ["LastUpdated"]⟩).LastUpdated =
    (⟨"d1", { ID := "d1", Name := "Door", LastUpdated := 300 },
       ["LastUpdated"]⟩ : Z2M.devices.StateChangedEvent).State.LastUpdated :=
  C4_last_updated.1
    { ID := "d1", Name := "Door", LastUpdated := 100 }
    ⟨"d1", { ID := "d1", Name := "Door", LastUpdated := 300 },
     ["LastUpdated"]⟩
    (by decide)
